import Mathlib

/-!
Formal model of the Madabot infrastructure context gatherer
(src/lambdas/analyzer/context_gatherer.py).

Strings are modelled as lists of characters (`Str`).  The Python regular
expressions used by the classifier are embedded as explicit leftmost-match
scanners (`firstSome` tries every start position from the left, as
`re.search` does); each `try...` function decides whether the pattern
matches at the current position and returns the captured group.
-/

namespace Madabot

/-- Strings, modelled as lists of characters. -/
abbrev Str := List Char

/-- Coerce a Lean string literal to the `Str` model. -/
def str (s : String) : Str := s.data

/-- Python's `s.lower()` (ASCII case folding, which covers all inputs the
classifier's patterns can match). -/
def lowerStr (s : Str) : Str := s.map Char.toLower

/-- Boolean test that `p` is a prefix of `s`. -/
def isPrefixB : Str → Str → Bool
  | [], _ => true
  | _ :: _, [] => false
  | p :: ps, c :: cs => p == c && isPrefixB ps cs

/-- Python's substring test `needle in hay`. -/
def containsStr (hay needle : Str) : Bool :=
  match hay with
  | [] => isPrefixB needle []
  | _ :: t => isPrefixB needle hay || containsStr t needle

/-- Leftmost-match scanner: try the position matcher `f` at every suffix of
the subject, left to right, as `re.search` does (including the empty final
position). -/
def firstSome (f : Str → Option α) : Str → Option α
  | [] => f []
  | c :: rest =>
    match f (c :: rest) with
    | some r => some r
    | none => firstSome f rest

/-- Hexadecimal digit as used by the patterns `[a-f0-9]`. -/
def isHexDig (c : Char) : Bool := c.isDigit || ('a' ≤ c && c ≤ 'f')

/-- Hexadecimal digit under `re.IGNORECASE`. -/
def isHexDigCI (c : Char) : Bool := isHexDig c.toLower

/-- Character class `[a-z0-9-]` under `re.IGNORECASE`. -/
def isPodValChar (c : Char) : Bool :=
  let l := c.toLower
  ('a' ≤ l && l ≤ 'z') || l.isDigit || l == '-'

/-- Character class `[a-z0-9.-]` under `re.IGNORECASE`. -/
def isNodeValChar (c : Char) : Bool := isPodValChar c || c == '.'

/-- Character class `[a-zA-Z0-9-]` (case sensitive, for the ALB pattern). -/
def isAlbNameChar (c : Char) : Bool := c.isAlpha || c.isDigit || c == '-'

/-- Character class `[:\s]` (colon or ASCII whitespace). -/
def isSepChar (c : Char) : Bool :=
  c == ':' || c == ' ' || c == '\t' || c == '\n' || c == '\r' ||
  c == '\x0b' || c == '\x0c'

/-- Match the literal word `p` (given lowercase) case-insensitively at the
head of `s`; return the remainder on success. -/
def matchCI : Str → Str → Option Str
  | [], s => some s
  | _ :: _, [] => none
  | p :: ps, c :: cs => if c.toLower == p then matchCI ps cs else none

/-- Match the literal word `p` case-sensitively at the head of `s`; return
the remainder on success. -/
def matchEx : Str → Str → Option Str
  | [], s => some s
  | _ :: _, [] => none
  | p :: ps, c :: cs => if c == p then matchEx ps cs else none

/-- Shared tail of the labelled key:value patterns: `[:\s]+` (one or more
separators, greedy) followed by a greedy nonempty run of `cls` characters,
which is the captured value.  The two classes are disjoint for every
pattern in the source, so greedy maximal munch is exact. -/
def sepThenValue (cls : Char → Bool) (rest : Str) : Option Str :=
  match rest.takeWhile isSepChar with
  | [] => none
  | _ :: _ =>
    match (rest.dropWhile isSepChar).takeWhile cls with
    | [] => none
    | x :: xs => some (x :: xs)

/-- Position matcher for `w1[_-]?w2[:\s]+(cls+)` with `re.IGNORECASE`
(the `pod[_-]?name`, `node[_-]?name` patterns).  When the optional `[_-]`
is consumed but `w2` then fails, the regex engine would retry with the
empty alternative, which always fails too since `w2` never starts with
an underscore or hyphen; so no backtracking is needed. -/
def tryLabeled (w1 w2 : Str) (cls : Char → Bool) (s : Str) : Option Str :=
  match matchCI w1 s with
  | none => none
  | some r1 =>
    let r2 :=
      match r1 with
      | [] => matchCI w2 []
      | c :: cs => if c == '_' || c == '-' then matchCI w2 cs else matchCI w2 (c :: cs)
    match r2 with
    | none => none
    | some rest => sepThenValue cls rest

/-- Position matcher for `w[:\s]+(cls+)` with `re.IGNORECASE`
(the `namespace` pattern). -/
def tryLabeledSimple (w : Str) (cls : Char → Bool) (s : Str) : Option Str :=
  match matchCI w s with
  | none => none
  | some rest => sepThenValue cls rest

/-- Position matcher for `container[_-]?id[:\s]+([a-f0-9]{12,64})` with
`re.IGNORECASE`: the value is a greedy hex run of length at least 12,
capped at 64 characters. -/
def tryLabeledHex (w1 w2 : Str) (s : Str) : Option Str :=
  match matchCI w1 s with
  | none => none
  | some r1 =>
    let r2 :=
      match r1 with
      | [] => matchCI w2 []
      | c :: cs => if c == '_' || c == '-' then matchCI w2 cs else matchCI w2 (c :: cs)
    match r2 with
    | none => none
    | some rest =>
      match rest.takeWhile isSepChar with
      | [] => none
      | _ :: _ =>
        let v := (rest.dropWhile isSepChar).takeWhile isHexDigCI
        if v.length < 12 then none else some (v.take 64)

/-- Position matcher for `/ecs/([^/]+)`. -/
def tryEcsCluster (s : Str) : Option Str :=
  match matchEx (str "/ecs/") s with
  | none => none
  | some rest =>
    match rest.takeWhile (fun c => c != '/') with
    | [] => none
    | x :: xs => some (x :: xs)

/-- Position matcher for `([a-f0-9]{32})`. -/
def tryHex32 (s : Str) : Option Str :=
  let pre := s.take 32
  if pre.length == 32 && pre.all isHexDig then some pre else none

/-- Position matcher for `/aws/lambda/([^/]+)`. -/
def tryLambdaFunc (s : Str) : Option Str :=
  match matchEx (str "/aws/lambda/") s with
  | none => none
  | some rest =>
    match rest.takeWhile (fun c => c != '/') with
    | [] => none
    | x :: xs => some (x :: xs)

/-- Position matcher for `(i-[a-f0-9]{8,17})`: greedy, so the capture takes
as many hex digits as available up to 17, and needs at least 8. -/
def tryEc2Id (s : Str) : Option Str :=
  match s with
  | c1 :: c2 :: rest =>
    if c1 == 'i' && c2 == '-' then
      let run := rest.takeWhile isHexDig
      if run.length < 8 then none
      else some ([ 'i', '-' ] ++ run.take 17)
    else none
  | _ => none

/-- Position matcher for `(app/[a-zA-Z0-9-]+/[a-f0-9]{16})`.  The name run
excludes the slash, so greedy maximal munch is exact. -/
def tryAlb (s : Str) : Option Str :=
  match matchEx (str "app/") s with
  | none => none
  | some r1 =>
    match r1.takeWhile isAlbNameChar with
    | [] => none
    | n :: nm =>
      match r1.dropWhile isAlbNameChar with
      | '/' :: r2 =>
        let h := r2.take 16
        if h.length == 16 && h.all isHexDig then
          some (str "app/" ++ (n :: nm) ++ [ '/' ] ++ h)
        else none
      | _ => none

/-- `re.search(r'/ecs/([^/]+)', s)`, returning the captured group. -/
def ecsCluster (s : Str) : Option Str := firstSome tryEcsCluster s

/-- `re.search(r'([a-f0-9]{32})', s)`. -/
def hex32 (s : Str) : Option Str := firstSome tryHex32 s

/-- `re.search(r'/aws/lambda/([^/]+)', s)`. -/
def lambdaFunc (s : Str) : Option Str := firstSome tryLambdaFunc s

/-- `re.search(r'(i-[a-f0-9]{8,17})', s)`. -/
def ec2Instance (s : Str) : Option Str := firstSome tryEc2Id s

/-- `re.search(r'pod[_-]?name[:\s]+([a-z0-9-]+)', m, re.IGNORECASE)`. -/
def podNameOf (m : Str) : Option Str :=
  firstSome (tryLabeled (str "pod") (str "name") isPodValChar) m

/-- `re.search(r'node[_-]?name[:\s]+([a-z0-9.-]+)', m, re.IGNORECASE)`. -/
def nodeNameOf (m : Str) : Option Str :=
  firstSome (tryLabeled (str "node") (str "name") isNodeValChar) m

/-- `re.search(r'namespace[:\s]+([a-z0-9-]+)', m, re.IGNORECASE)`. -/
def namespaceOf (m : Str) : Option Str :=
  firstSome (tryLabeledSimple (str "namespace") isPodValChar) m

/-- `re.search(r'container[_-]?id[:\s]+([a-f0-9]{12,64})', m, re.IGNORECASE)`. -/
def containerIdOf (m : Str) : Option Str :=
  firstSome (tryLabeledHex (str "container") (str "id")) m

/-- `re.search(r'(app/[a-zA-Z0-9-]+/[a-f0-9]{16})', m)`. -/
def albOf (m : Str) : Option Str := firstSome tryAlb m

/-- Detection condition for ECS: `'/ecs/' in log_group or '/ecs/' in log_stream`. -/
def ecsCond (log_group log_stream : Str) : Bool :=
  containsStr log_group (str "/ecs/") || containsStr log_stream (str "/ecs/")

/-- Detection condition for Lambda: `'/lambda/' in log_group`. -/
def lambdaCond (log_group : Str) : Bool := containsStr log_group (str "/lambda/")

/-- Detection condition for EC2: `'ec2' in log_group.lower()`. -/
def ec2Cond (log_group : Str) : Bool := containsStr (lowerStr log_group) (str "ec2")

/-- Detection condition for Kubernetes:
`'kubernetes' in message.lower() or 'pod' in log_stream.lower()`. -/
def k8sCond (log_stream message : Str) : Bool :=
  containsStr (lowerStr message) (str "kubernetes") ||
  containsStr (lowerStr log_stream) (str "pod")

/-- Result of `ContextGatherer.extract_log_context` (a Python dict).  The
`namespace` key, which the source only adds when the Kubernetes pattern
extracts one, is the field `namespace_val` (with `none` standing for the
absent key); similarly `load_balancer_name`. -/
structure LogContext where
  log_group : Str
  log_stream : Str
  infrastructure_type : Str
  resource_id : Option Str := none
  pod_name : Option Str := none
  node_name : Option Str := none
  container_id : Option Str := none
  cluster_name : Option Str := none
  task_id : Option Str := none
  namespace_val : Option Str := none
  load_balancer_name : Option Str := none
  deriving Repr, DecidableEq

/-- `ContextGatherer.extract_log_context(log_group, log_stream, message)`:
the cascade of detection rules over the three identifiers, with the
Kubernetes rule allowed to overwrite the kind chosen by the earlier
group/stream rules, and the container-id / load-balancer extractions
running independently of the kind. -/
def extract_log_context (log_group log_stream message : Str) : LogContext :=
  let ctx : LogContext :=
    { log_group := log_group, log_stream := log_stream,
      infrastructure_type := str "unknown" }
  let ctx :=
    if ecsCond log_group log_stream then
      { ctx with infrastructure_type := str "ecs",
                 cluster_name := ecsCluster log_group,
                 task_id := hex32 log_stream,
                 resource_id := hex32 log_stream }
    else if lambdaCond log_group then
      { ctx with infrastructure_type := str "lambda",
                 resource_id := lambdaFunc log_group }
    else if ec2Cond log_group then
      { ctx with infrastructure_type := str "ec2",
                 resource_id := ec2Instance log_stream }
    else ctx
  let ctx :=
    if k8sCond log_stream message then
      { ctx with infrastructure_type := str "kubernetes",
                 pod_name := podNameOf message,
                 node_name := nodeNameOf message,
                 namespace_val := namespaceOf message }
    else ctx
  let ctx := { ctx with container_id := containerIdOf message }
  let ctx := { ctx with load_balancer_name := albOf message }
  ctx

/-! ## Error model and backend interface

The boto3 clients raise `botocore.exceptions.ClientError` for API error
responses (permission denied, not found, throttling...).  Transport-level
failures (no connectivity, timeouts) raise other exception classes that do
not inherit from `ClientError`; the source's `except ClientError` handlers
do not catch them.  Both families are modelled by `PyErr`. -/

/-- An exception escaping a backend call: either a `botocore ClientError`
or any other exception class (connection error, timeout, `IndexError`...). -/
inductive PyErr where
  | clientError (msg : Str) : PyErr
  | otherError (msg : Str) : PyErr
  deriving Repr, DecidableEq

/-- Outcome of Python code that may raise. -/
abbrev Py (α : Type) := Except PyErr α

/-- The `try: body except ClientError: return default` wrapper every status
client uses: a `ClientError` is absorbed into the default result, any other
exception propagates. -/
def catchClient (x : Py α) (default : α) : Py α :=
  match x with
  | .error (.clientError _) => .ok default
  | other => other

/-- Python sequencing: run the rest of the body on the call's value, or
let the exception keep propagating. -/
def pyStep (x : Py α) (f : α → Py β) : Py β :=
  match x with
  | .error e => .error e
  | .ok v => f v

/-- One CloudWatch Logs event as delivered by `get_log_events`. -/
structure LogEvent where
  timestamp : Int
  message : Str
  deriving Repr, DecidableEq

/-- Response of `logs.get_log_events`. -/
structure LogEventsResp where
  events : List LogEvent
  deriving Repr, DecidableEq

/-- One scheduled-event record inside an EC2 instance status (`NotBefore`
is already rendered to its string form by the model, matching the
source's `str(event.get('NotBefore', ''))`). -/
structure InstanceEvent where
  code : Str
  description : Str
  notBefore : Option Str
  deriving Repr, DecidableEq

/-- One record of `ec2.describe_instance_status`. -/
structure InstanceStatusRec where
  instanceStateName : Str
  systemStatus : Option Str
  instanceStatus : Option Str
  events : List InstanceEvent
  deriving Repr, DecidableEq

/-- Response of `ec2.describe_instance_status`. -/
structure InstanceStatusResp where
  instanceStatuses : List InstanceStatusRec
  deriving Repr, DecidableEq

/-- Response of `ecs.list_clusters`. -/
structure ClustersResp where
  clusterArns : List Str
  deriving Repr, DecidableEq

/-- One container record inside an ECS task description. -/
structure ContainerRec where
  name : Str
  lastStatus : Option Str
  exitCode : Option Int
  reason : Option Str
  deriving Repr, DecidableEq

/-- One task record of `ecs.describe_tasks`. -/
structure TaskRec where
  taskArn : Str
  lastStatus : Option Str
  desiredStatus : Option Str
  healthStatus : Option Str
  containers : List ContainerRec
  cpu : Option Str
  memory : Option Str
  deriving Repr, DecidableEq

/-- Response of `ecs.describe_tasks`. -/
structure TasksResp where
  tasks : List TaskRec
  deriving Repr, DecidableEq

/-- One load balancer of `elbv2.describe_load_balancers`. -/
structure LBRec where
  loadBalancerArn : Str
  stateCode : Str
  deriving Repr, DecidableEq

/-- Response of `elbv2.describe_load_balancers`. -/
structure LBResp where
  loadBalancers : List LBRec
  deriving Repr, DecidableEq

/-- One target group of `elbv2.describe_target_groups`. -/
structure TGRec where
  targetGroupArn : Str
  targetGroupName : Str
  deriving Repr, DecidableEq

/-- Response of `elbv2.describe_target_groups`. -/
structure TGResp where
  targetGroups : List TGRec
  deriving Repr, DecidableEq

/-- One target health description of `elbv2.describe_target_health`. -/
structure THDRec where
  targetId : Str
  targetPort : Option Int
  state : Str
  reason : Option Str
  deriving Repr, DecidableEq

/-- Response of `elbv2.describe_target_health`. -/
structure THResp where
  targetHealthDescriptions : List THDRec
  deriving Repr, DecidableEq

/-- One stack summary of `cloudformation.list_stacks` (timestamps in epoch
milliseconds; `lastUpdatedTime` is optional in the API). -/
structure StackSummary where
  stackName : Str
  stackStatus : Str
  lastUpdatedTime : Option Int
  creationTime : Int
  deriving Repr, DecidableEq

/-- Response of `cloudformation.list_stacks` (the source always passes the
same fixed `StackStatusFilter`, so the filter is part of the backend). -/
structure StacksResp where
  stackSummaries : List StackSummary
  deriving Repr, DecidableEq

/-- One stack event of `cloudformation.describe_stack_events`. -/
structure StackEvent where
  timestamp : Int
  logicalResourceId : Str
  resourceStatus : Str
  resourceStatusReason : Option Str
  deriving Repr, DecidableEq

/-- Response of `cloudformation.describe_stack_events`. -/
structure StackEventsResp where
  stackEvents : List StackEvent
  deriving Repr, DecidableEq

/-- One datapoint of `cloudwatch.get_metric_statistics`, carrying the value
of the single requested statistic (exact rationals stand in for the
Python floats; no claim depends on float rounding). -/
structure Datapoint where
  timestamp : Int
  value : Rat
  deriving Repr, DecidableEq

/-- Response of `cloudwatch.get_metric_statistics`. -/
structure DatapointsResp where
  datapoints : List Datapoint
  deriving Repr, DecidableEq

/-- One tag of `ec2.describe_tags`. -/
structure TagRec where
  key : Str
  value : Str
  deriving Repr, DecidableEq

/-- Response of `ec2.describe_tags`. -/
structure TagsResp where
  tags : List TagRec
  deriving Repr, DecidableEq

/-- The collection of AWS backends the gatherer talks to.  Each field is
the outcome of one API call: a response, or an exception.
`logs_get_log_events` takes (group, stream, startTime, limit,
startFromHead); `cw_get_metric_statistics` takes (namespace, dimensions,
metric name, statistic, startTime, endTime). -/
structure Backend where
  logs_get_log_events : Str → Str → Int → Nat → Bool → Py LogEventsResp
  ec2_describe_instance_status : Str → Py InstanceStatusResp
  ecs_list_clusters : Py ClustersResp
  ecs_describe_tasks : Str → Str → Py TasksResp
  elbv2_describe_load_balancers : Str → Py LBResp
  elbv2_describe_target_groups : Str → Py TGResp
  elbv2_describe_target_health : Str → Py THResp
  cfn_list_stacks : Py StacksResp
  cfn_describe_stack_events : Str → Py StackEventsResp
  cw_get_metric_statistics : Option Str → List (Str × Str) → Str → Str → Int → Int → Py DatapointsResp
  ec2_describe_tags : Str → Py TagsResp

/-! ## Status clients -/

/-- One entry of the list returned by `get_recent_logs`. -/
structure LogEntry where
  timestamp : Int
  message : Str
  deriving Repr, DecidableEq

/-- `ContextGatherer.get_recent_logs(log_group, log_stream, lookback_minutes)`:
query the log backend for events from the trailing window (start time is
`now` minus the lookback, in epoch milliseconds) with `limit=50` and
`startFromHead=False`, truncate each message to its first 500 characters;
a `ClientError` yields the empty list. -/
def get_recent_logs (B : Backend) (now : Int) (log_group log_stream : Str)
    (lookback_minutes : Int := 10) : Py (List LogEntry) :=
  catchClient
    (pyStep (B.logs_get_log_events log_group log_stream
        (now - lookback_minutes * 60000) 50 false) (fun resp =>
      .ok (resp.events.map (fun e =>
        { timestamp := e.timestamp, message := e.message.take 500 }))))
    []

/-- One scheduled event in the result of `get_ec2_instance_status`. -/
structure Ec2EventInfo where
  code : Str
  description : Str
  not_before : Str
  deriving Repr, DecidableEq

/-- Result payload of `get_ec2_instance_status`. -/
structure Ec2Status where
  instance_id : Str
  instance_state : Str
  system_status : Str
  instance_status : Str
  events : List Ec2EventInfo
  deriving Repr, DecidableEq

/-- `ContextGatherer.get_ec2_instance_status(instance_id)`: describe the
instance; an empty status list or a `ClientError` yields `none`. -/
def get_ec2_instance_status (B : Backend) (instance_id : Str) : Py (Option Ec2Status) :=
  catchClient
    (pyStep (B.ec2_describe_instance_status instance_id) (fun resp =>
      match resp.instanceStatuses with
      | [] => .ok none
      | status :: _ =>
        .ok (some
          { instance_id := instance_id,
            instance_state := status.instanceStateName,
            system_status := status.systemStatus.getD (str "unknown"),
            instance_status := status.instanceStatus.getD (str "unknown"),
            events := status.events.map (fun e =>
              { code := e.code, description := e.description,
                not_before := e.notBefore.getD (str "") }) })))
    none

/-- One container in the result of `get_ecs_task_health`. -/
structure ContainerInfo where
  name : Str
  last_status : Option Str
  exit_code : Option Int
  reason : Str
  deriving Repr, DecidableEq

/-- Result payload of `get_ecs_task_health`. -/
structure EcsTaskHealth where
  task_id : Str
  cluster : Str
  task_arn : Str
  last_status : Option Str
  desired_status : Option Str
  health_status : Str
  containers : List ContainerInfo
  cpu : Option Str
  memory : Option Str
  deriving Repr, DecidableEq

/-- Build the result dict of `get_ecs_task_health` from the first task
returned by `describe_tasks` on the matching cluster. -/
def mkTaskHealth (task_id cluster : Str) (task : TaskRec) : EcsTaskHealth :=
  { task_id := task_id, cluster := cluster, task_arn := task.taskArn,
    last_status := task.lastStatus, desired_status := task.desiredStatus,
    health_status := task.healthStatus.getD (str "UNKNOWN"),
    containers := task.containers.map (fun c =>
      { name := c.name, last_status := c.lastStatus, exit_code := c.exitCode,
        reason := c.reason.getD (str "") }),
    cpu := task.cpu, memory := task.memory }

/-- The `for cluster in clusters_to_check` loop of `get_ecs_task_health`:
describe the task in each cluster in order; a per-cluster `ClientError`
is skipped (`continue`), any other exception propagates; the first
non-empty task list wins.  Also returns the list of clusters actually
probed, in order. -/
def probeClusters (describe : Str → Py TasksResp) (task_id : Str) :
    List Str → Py (Option EcsTaskHealth) × List Str
  | [] => (.ok none, [])
  | c :: rest =>
    match describe c with
    | .error (.clientError _) =>
      let r := probeClusters describe task_id rest
      (r.1, c :: r.2)
    | .error e => (.error e, [c])
    | .ok resp =>
      match resp.tasks with
      | [] =>
        let r := probeClusters describe task_id rest
        (r.1, c :: r.2)
      | task :: _ => (.ok (some (mkTaskHealth task_id c task)), [c])

/-- `ContextGatherer.get_ecs_task_health(task_id, cluster_name)`: when no
cluster is supplied, list all clusters and probe each in order; a
`ClientError` around the whole body (e.g. from `list_clusters`) yields
`none`. -/
def get_ecs_task_health (B : Backend) (task_id : Str)
    (cluster_name : Option Str := none) : Py (Option EcsTaskHealth) :=
  catchClient
    (pyStep (match cluster_name with
             | some c => Except.ok [c]
             | none => pyStep B.ecs_list_clusters (fun resp => .ok resp.clusterArns))
      (fun clusters =>
        (probeClusters (fun c => B.ecs_describe_tasks c task_id) task_id clusters).1))
    none

/-- One target in the result of `get_alb_target_health`. -/
structure TargetInfo where
  id : Str
  port : Option Int
  state : Str
  reason : Str
  deriving Repr, DecidableEq

/-- One target group in the result of `get_alb_target_health`. -/
structure TGInfo where
  name : Str
  healthy_targets : Nat
  total_targets : Nat
  targets : List TargetInfo
  deriving Repr, DecidableEq

/-- Result payload of `get_alb_target_health`. -/
structure LBHealth where
  load_balancer : Str
  state : Str
  target_groups : List TGInfo
  deriving Repr, DecidableEq

/-- Python's `s.split(sep)` (single-character separator; empty segments
are preserved, the empty string splits to one empty segment). -/
def splitOn (sep : Char) : Str → List Str
  | [] => [[]]
  | c :: rest =>
    let r := splitOn sep rest
    if c == sep then [] :: r
    else
      match r with
      | [] => [[c]]
      | h :: t => (c :: h) :: t

/-- Python's `parts[-2]`: the second-to-last element, raising `IndexError`
(not a `ClientError`) when fewer than two elements exist. -/
def pyIndexNeg2 (parts : List Str) : Py Str :=
  if h : 2 ≤ parts.length then
    .ok (parts.get ⟨parts.length - 2, by omega⟩)
  else .error (.otherError (str "IndexError"))

/-- The `for tg in tg_response.get('TargetGroups', [])` loop of
`get_alb_target_health`: fetch each group's target health and compute the
healthy/total counts. -/
def albTargetGroups (B : Backend) : List TGRec → Py (List TGInfo)
  | [] => .ok []
  | tg :: rest =>
    pyStep (B.elbv2_describe_target_health tg.targetGroupArn) (fun hResp =>
      let descs := hResp.targetHealthDescriptions
      let info : TGInfo :=
        { name := tg.targetGroupName,
          healthy_targets := (descs.filter (fun t => t.state == str "healthy")).length,
          total_targets := descs.length,
          targets := descs.map (fun t =>
            { id := t.targetId, port := t.targetPort, state := t.state,
              reason := t.reason.getD (str "") }) }
      pyStep (albTargetGroups B rest) (fun infos => .ok (info :: infos)))

/-- `ContextGatherer.get_alb_target_health(load_balancer_name)`: resolve
the balancer via the second-to-last path segment of the name, then its
target groups and their health; an empty balancer list or a `ClientError`
yields `none`. -/
def get_alb_target_health (B : Backend) (load_balancer_name : Str) : Py (Option LBHealth) :=
  catchClient
    (pyStep (pyIndexNeg2 (splitOn '/' load_balancer_name)) (fun lookupName =>
      pyStep (B.elbv2_describe_load_balancers lookupName) (fun lbResp =>
        match lbResp.loadBalancers with
        | [] => .ok none
        | lb :: _ =>
          pyStep (B.elbv2_describe_target_groups lb.loadBalancerArn) (fun tgResp =>
            pyStep (albTargetGroups B tgResp.targetGroups) (fun tgs =>
              .ok (some { load_balancer := load_balancer_name,
                          state := lb.stateCode, target_groups := tgs }))))))
    none

/-- One failed resource in a recent-change record. -/
structure FailedRes where
  resource : Str
  status : Str
  reason : Str
  deriving Repr, DecidableEq

/-- One record in the result of `get_recent_cloudformation_changes`
(`last_updated` keeps the epoch-millisecond timestamp whose `str()`
rendering the source stores; no claim reads it). -/
structure ChangeRec where
  stack_name : Str
  status : Str
  last_updated : Int
  recent_events_count : Nat
  failed_resources : List FailedRes
  deriving Repr, DecidableEq

/-- The `for stack_summary in ...` loop of
`get_recent_cloudformation_changes`: a stack whose last-updated (or
creation) time falls after the cutoff has its events fetched; stacks with
recent events contribute a change record annotated with the events whose
status contains `FAILED`. -/
def cfnStacksLoop (B : Backend) (cutoff : Int) : List StackSummary → Py (List ChangeRec)
  | [] => .ok []
  | ss :: rest =>
    let last_updated := ss.lastUpdatedTime.getD ss.creationTime
    if cutoff < last_updated then
      pyStep (B.cfn_describe_stack_events ss.stackName) (fun evResp =>
        let recent := evResp.stackEvents.filter (fun e => cutoff < e.timestamp)
        pyStep (cfnStacksLoop B cutoff rest) (fun tailChanges =>
          if recent.isEmpty then .ok tailChanges
          else
            .ok ({ stack_name := ss.stackName, status := ss.stackStatus,
                   last_updated := last_updated,
                   recent_events_count := recent.length,
                   failed_resources := (recent.filter (fun e =>
                       containsStr e.resourceStatus (str "FAILED"))).map
                     (fun e => { resource := e.logicalResourceId,
                                 status := e.resourceStatus,
                                 reason := e.resourceStatusReason.getD (str "") }) }
                 :: tailChanges)))
    else cfnStacksLoop B cutoff rest

/-- `ContextGatherer.get_recent_cloudformation_changes(lookback_hours)`:
list the stacks and collect those changed within the trailing window;
a `ClientError` yields the empty list. -/
def get_recent_cloudformation_changes (B : Backend) (now : Int)
    (lookback_hours : Int := 24) : Py (List ChangeRec) :=
  catchClient
    (pyStep B.cfn_list_stacks (fun resp =>
      cfnStacksLoop B (now - lookback_hours * 3600000) resp.stackSummaries))
    []

/-- Reduction of one metric series in `get_cloudwatch_metrics`. -/
structure MetricStat where
  current : Rat
  average : Rat
  max : Rat
  datapoints : Nat
  deriving Repr, DecidableEq

/-- Result payload of `get_cloudwatch_metrics`.  The `cpu`, `memory` and
`errors` keys are initialised to empty dicts (here `none`); `duration`
and `concurrency` can be added by the Lambda metric queries. -/
structure MetricsData where
  period : Str
  cpu : Option MetricStat := none
  memory : Option MetricStat := none
  errors : Option MetricStat := none
  duration : Option MetricStat := none
  concurrency : Option MetricStat := none
  deriving Repr, DecidableEq

/-- The metric dictionary key each query writes to. -/
inductive MetricKey where
  | cpu | memory | errors | duration | concurrency
  deriving Repr, DecidableEq

/-- `metrics[key] = value`. -/
def setMetric (md : MetricsData) (k : MetricKey) (v : MetricStat) : MetricsData :=
  match k with
  | .cpu => { md with cpu := some v }
  | .memory => { md with memory := some v }
  | .errors => { md with errors := some v }
  | .duration => { md with duration := some v }
  | .concurrency => { md with concurrency := some v }

/-- Stable insertion into a timestamp-sorted datapoint list. -/
def insertByTs (d : Datapoint) : List Datapoint → List Datapoint
  | [] => [d]
  | e :: es => if d.timestamp ≤ e.timestamp then d :: e :: es else e :: insertByTs d es

/-- Python's stable `sorted(datapoints, key=lambda x: x['Timestamp'])`. -/
def sortByTs : List Datapoint → List Datapoint
  | [] => []
  | d :: ds => insertByTs d (sortByTs ds)

/-- Maximum of a list of values, seeded with `x`. -/
def listMax (x : Rat) : List Rat → Rat
  | [] => x
  | v :: vs => listMax (max x v) vs

/-- Sum of a list of values. -/
def listSum : List Rat → Rat
  | [] => 0
  | v :: vs => v + listSum vs

/-- Last element of `x :: l` (Python's `datapoints[-1]` on a list known to
be non-empty). -/
def lastD (x : Datapoint) : List Datapoint → Datapoint
  | [] => x
  | y :: ys => lastD y ys

/-- The `for metric_name, key, stat in metric_queries` loop of
`get_cloudwatch_metrics`: each query is fetched independently, a
per-query `ClientError` is skipped (`continue`), an empty series writes
nothing, a non-empty series is sorted by timestamp and reduced to
`{current, average, max, datapoints}`. -/
def metricsLoop (B : Backend) (nsp : Option Str) (dims : List (Str × Str))
    (startTime endTime : Int) :
    List (Str × MetricKey × Str) → MetricsData → Py MetricsData
  | [], md => .ok md
  | (mName, key, stat) :: rest, md =>
    match B.cw_get_metric_statistics nsp dims mName stat startTime endTime with
    | .error (.clientError _) => metricsLoop B nsp dims startTime endTime rest md
    | .error e => .error e
    | .ok resp =>
      match sortByTs resp.datapoints with
      | [] => metricsLoop B nsp dims startTime endTime rest md
      | d :: ds =>
        let vals := (d :: ds).map (fun x => x.value)
        let v : MetricStat :=
          { current := (lastD d ds).value,
            average := listSum vals / (vals.length : Rat),
            max := listMax d.value vals,
            datapoints := (d :: ds).length }
        metricsLoop B nsp dims startTime endTime rest (setMetric md key v)

/-- Decimal rendering of a natural number (for the `period` text). -/
def natToStr (n : Nat) : Str := Nat.toDigits 10 n

/-- `ContextGatherer.get_cloudwatch_metrics(log_group, lookback_minutes)`:
choose namespace, dimensions and the fixed query list from the log-group
shape (`/lambda/` or `/ecs/`; anything else queries nothing), run the
queries, and return the metrics dict; a `ClientError` around the body
yields `none` (the empty dict). -/
def get_cloudwatch_metrics (B : Backend) (now : Int) (log_group : Str)
    (lookback_minutes : Nat := 30) : Py (Option MetricsData) :=
  catchClient
    (let endTime := now
     let startTime := now - (lookback_minutes : Int) * 60000
     let md : MetricsData := { period := natToStr lookback_minutes ++ str " minutes" }
     if containsStr log_group (str "/lambda/") then
       pyStep (metricsLoop B (some (str "AWS/Lambda"))
           [(str "FunctionName", (splitOn '/' log_group).getLastD [])]
           startTime endTime
           [(str "Errors", MetricKey.errors, str "Sum"),
            (str "Duration", MetricKey.duration, str "Average"),
            (str "ConcurrentExecutions", MetricKey.concurrency, str "Maximum")] md)
         (fun md2 => .ok (some md2))
     else if containsStr log_group (str "/ecs/") then
       pyStep (metricsLoop B (some (str "AWS/ECS")) [] startTime endTime
           [(str "CPUUtilization", MetricKey.cpu, str "Average"),
            (str "MemoryUtilization", MetricKey.memory, str "Average")] md)
         (fun md2 => .ok (some md2))
     else .ok (some md))
    none

/-- `ContextGatherer.get_resource_tags(resource_id, resource_type)`: tags
only exist for the EC2 kind (the ECS branch and the fallthrough both
return the empty dict); a `ClientError` yields the empty dict.  AWS tag
keys are unique per resource, so the source's dict comprehension is a
plain pairing. -/
def get_resource_tags (B : Backend) (resource_id : Str)
    (resource_type : Option Str) : Py (List (Str × Str)) :=
  catchClient
    (if resource_type == some (str "ec2") then
       pyStep (B.ec2_describe_tags resource_id) (fun resp =>
         .ok (resp.tags.map (fun t => (t.key, t.value))))
     else .ok [])
    []

/-! ## Aggregator -/

/-- The client invocations `gather_all_context` can perform, recorded in
execution order. -/
inductive Call where
  | recentLogs | ecsHealth | ec2Status | albHealth | cfnChanges | cwMetrics | resourceTags
  deriving Repr, DecidableEq

/-- The `context['compute']` dict once the aggregator has stored a result
under the `ecs` or `ec2` key (possibly `None`); the initial empty dict is
`none` at the `EnrichedContext` level. -/
structure ComputeField where
  ecs : Option EcsTaskHealth := none
  ec2 : Option Ec2Status := none
  deriving Repr, DecidableEq

/-- The aggregate context dict built by `gather_all_context`.  `none` / `[]`
stand for the falsy initial values (`{}`); `recent_logs := none` stands
for the key being absent altogether (it is only inserted when the alert
carries both log fields). -/
structure EnrichedContext where
  log_context : Option LogContext := none
  compute : Option ComputeField := none
  load_balancers : Option LBHealth := none
  recent_changes : List ChangeRec := []
  metrics : Option MetricsData := none
  resource_tags : List (Str × Str) := []
  recent_logs : Option (List LogEntry) := none
  deriving Repr, DecidableEq

/-- An alert record; `none` stands for the key being absent from the dict. -/
structure Alert where
  log_group : Option Str := none
  log_stream : Option Str := none
  message : Option Str := none
  deriving Repr, DecidableEq

/-- Python truthiness of an optional string (`None` and the empty string
are falsy). -/
def truthyOptStr : Option Str → Bool
  | some s => !s.isEmpty
  | none => false

/-- `ContextGatherer.gather_all_context(alert)`: classify when both log
fields are present, then run the applicable clients in source order
(recent logs, compute, load balancers, CloudFormation changes, metrics,
tags), also returning the invocation trace.  No exception handling
happens at this level: an exception escaping a client propagates. -/
def gather_all_context (B : Backend) (now : Int) (alert : Alert) :
    Py (EnrichedContext × List Call) :=
  let log_context : Option LogContext :=
    match alert.log_group, alert.log_stream with
    | some g, some s => some (extract_log_context g s (alert.message.getD []))
    | _, _ => none
  let step_logs : Py (Option (List LogEntry) × List Call) :=
    match alert.log_group, alert.log_stream with
    | some g, some s =>
      pyStep (get_recent_logs B now g s 10) (fun r => .ok (some r, [Call.recentLogs]))
    | _, _ => .ok (none, [])
  pyStep step_logs (fun sl =>
  let infra_type : Option Str := log_context.map (fun lc => lc.infrastructure_type)
  let resource_id : Option Str := log_context.bind (fun lc => lc.resource_id)
  let step_compute : Py (Option ComputeField × List Call) :=
    if infra_type == some (str "ecs") && truthyOptStr resource_id then
      pyStep (get_ecs_task_health B (resource_id.getD []) none)
        (fun r => .ok (some { ecs := r }, [Call.ecsHealth]))
    else if infra_type == some (str "ec2") && truthyOptStr resource_id then
      pyStep (get_ec2_instance_status B (resource_id.getD []))
        (fun r => .ok (some { ec2 := r }, [Call.ec2Status]))
    else .ok (none, [])
  pyStep step_compute (fun sc =>
  let step_lb : Py (Option LBHealth × List Call) :=
    if truthyOptStr (log_context.bind (fun lc => lc.load_balancer_name)) then
      pyStep (get_alb_target_health B
          ((log_context.bind (fun lc => lc.load_balancer_name)).getD []))
        (fun r => .ok (r, [Call.albHealth]))
    else .ok (none, [])
  pyStep step_lb (fun slb =>
  pyStep (get_recent_cloudformation_changes B now 24) (fun recent_changes =>
  let step_metrics : Py (Option MetricsData × List Call) :=
    match alert.log_group with
    | some g =>
      pyStep (get_cloudwatch_metrics B now g 30) (fun m => .ok (m, [Call.cwMetrics]))
    | none => .ok (none, [])
  pyStep step_metrics (fun sm =>
  let step_tags : Py (List (Str × Str) × List Call) :=
    if truthyOptStr resource_id then
      pyStep (get_resource_tags B (resource_id.getD []) infra_type)
        (fun t => .ok (t, [Call.resourceTags]))
    else .ok ([], [])
  pyStep step_tags (fun st =>
  .ok ({ log_context := log_context, compute := sc.1, load_balancers := slb.1,
         recent_changes := recent_changes, metrics := sm.1,
         resource_tags := st.1, recent_logs := sl.1 },
       sl.2 ++ sc.2 ++ slb.2 ++ [Call.cfnChanges] ++ sm.2 ++ st.2)))))))

/-! ## Formatter -/

/-- Decimal rendering of an integer (for container exit codes). -/
def intToStr (i : Int) : Str :=
  if i < 0 then '-' :: natToStr i.natAbs else natToStr i.natAbs

/-- Python f-string rendering of an optional string (`None` prints as
the text `None`). -/
def pyStrOpt : Option Str → Str
  | some s => s
  | none => str "None"

/-- Python's `sep.join(parts)`. -/
def joinSep (sep : Str) : List Str → Str
  | [] => []
  | [x] => x
  | x :: xs => x ++ sep ++ joinSep sep xs

/-- Conditional line of `format_context_for_prompt`: emitted only when the
optional value is truthy. -/
def optLine (pre : Str) : Option Str → List Str
  | some s => if s.isEmpty then [] else [pre ++ s]
  | none => []

/-- The Infrastructure Context section. -/
def infraSection (ctx : EnrichedContext) : List Str :=
  match ctx.log_context with
  | none => []
  | some lc =>
    [str "## Infrastructure Context",
     str "- Type: " ++ lc.infrastructure_type]
    ++ optLine (str "- Pod: ") lc.pod_name
    ++ optLine (str "- Node: ") lc.node_name
    ++ optLine (str "- ECS Task: ") lc.task_id
    ++ optLine (str "- Cluster: ") lc.cluster_name
    ++ (match lc.container_id with
        | some c => if c.isEmpty then [] else [str "- Container: " ++ c.take 12]
        | none => [])
    ++ optLine (str "- Resource ID: ") lc.resource_id

/-- The Recent Log Entries section: at most 10 entries shown, each message
truncated to 200 characters for display.  `fmtT` renders a timestamp the
way the source's `datetime.fromtimestamp(...).strftime` does (wall-clock
formatting is environment-dependent and no claim reads the digits). -/
def recentLogsSection (fmtT : Int → Str) (ctx : EnrichedContext) : List Str :=
  match ctx.recent_logs with
  | none => []
  | some logs =>
    if logs.isEmpty then []
    else
      (str "\n## Recent Log Entries (last 10 minutes)") ::
      (logs.take 10).map (fun l =>
        str "[" ++ fmtT l.timestamp ++ str "] " ++ l.message.take 200)

/-- The EC2 half of the compute section. -/
def ec2Block (e : Ec2Status) : List Str :=
  [str "\n## EC2 Instance Health",
   str "- State: " ++ e.instance_state,
   str "- System Status: " ++ e.system_status,
   str "- Instance Status: " ++ e.instance_status]
  ++ (if e.events.isEmpty then []
      else [str "- Events: " ++ joinSep (str ", ") (e.events.map (fun ev => ev.code))])

/-- The ECS half of the compute section (an exit code of 0 is falsy in
Python and is not shown). -/
def ecsBlock (t : EcsTaskHealth) : List Str :=
  [str "\n## ECS Task Health",
   str "- Last Status: " ++ pyStrOpt t.last_status,
   str "- Desired Status: " ++ pyStrOpt t.desired_status,
   str "- Health: " ++ t.health_status,
   str "- Containers:"]
  ++ t.containers.flatMap (fun c =>
      (str "  - " ++ c.name ++ str ": " ++ pyStrOpt c.last_status) ::
      (match c.exit_code with
       | some ec => if ec == 0 then [] else [str "    Exit code: " ++ intToStr ec]
       | none => []))

/-- The compute health section. -/
def computeSection (ctx : EnrichedContext) : List Str :=
  match ctx.compute with
  | none => []
  | some comp =>
    (match comp.ec2 with
     | none => []
     | some e => ec2Block e)
    ++ (match comp.ecs with
        | none => []
        | some t => ecsBlock t)

/-- The Load Balancer Health section. -/
def lbSection (ctx : EnrichedContext) : List Str :=
  match ctx.load_balancers with
  | none => []
  | some lb =>
    (str "\n## Load Balancer Health") ::
    (str "- State: " ++ lb.state) ::
    lb.target_groups.map (fun tg =>
      str "- " ++ tg.name ++ str ": " ++ natToStr tg.healthy_targets
        ++ str "/" ++ natToStr tg.total_targets ++ str " healthy")

/-- The Recent Infrastructure Changes section: at most 5 changes shown. -/
def changesSection (ctx : EnrichedContext) : List Str :=
  if ctx.recent_changes.isEmpty then []
  else
    (str "\n## Recent Infrastructure Changes (last 24h)") ::
    (ctx.recent_changes.take 5).flatMap (fun ch =>
      (str "- " ++ ch.stack_name ++ str ": " ++ ch.status) ::
      ch.failed_resources.map (fun f =>
        str "  ⚠️ " ++ f.resource ++ str ": " ++ f.reason))

/-- The CloudWatch Metrics section.  `fmtF` renders a number the way the
f-string `:.1f` does, `fmtG` the way a bare f-string interpolation does;
no claim reads the digits. -/
def metricsSection (fmtF fmtG : Rat → Str) (ctx : EnrichedContext) : List Str :=
  match ctx.metrics with
  | none => []
  | some m =>
    (str "\n## CloudWatch Metrics (" ++ m.period ++ str ")") ::
    ((match m.cpu with
      | none => []
      | some c => [str "- CPU: current=" ++ fmtF c.current ++ str "%, avg="
                    ++ fmtF c.average ++ str "%, max=" ++ fmtF c.max ++ str "%"])
     ++ (match m.memory with
         | none => []
         | some c => [str "- Memory: current=" ++ fmtF c.current ++ str "%, avg="
                       ++ fmtF c.average ++ str "%, max=" ++ fmtF c.max ++ str "%"])
     ++ (match m.errors with
         | none => []
         | some c => [str "- Errors: current=" ++ fmtG c.current
                       ++ str ", total=" ++ fmtG c.max]))

/-- The Resource Tags section. -/
def tagsSection (ctx : EnrichedContext) : List Str :=
  if ctx.resource_tags.isEmpty then []
  else
    (str "\n## Resource Tags") ::
    ctx.resource_tags.map (fun kv => str "- " ++ kv.1 ++ str ": " ++ kv.2)

/-- All lines appended by `format_context_for_prompt`, in source order. -/
def allSections (fmtF fmtG : Rat → Str) (fmtT : Int → Str)
    (ctx : EnrichedContext) : List Str :=
  infraSection ctx ++ recentLogsSection fmtT ctx ++ computeSection ctx
    ++ lbSection ctx ++ changesSection ctx ++ metricsSection fmtF fmtG ctx
    ++ tagsSection ctx

/-- `ContextGatherer.format_context_for_prompt(context)`:
`"\n".join(sections)`. -/
def format_context_for_prompt (fmtF fmtG : Rat → Str) (fmtT : Int → Str)
    (ctx : EnrichedContext) : Str :=
  joinSep (str "\n") (allSections fmtF fmtG fmtT ctx)

/-! ## Concrete backends used by witnesses and counterexamples -/

/-- A backend on which every call fails with a `ClientError` (an API error
response from every service). -/
def failingBackend : Backend where
  logs_get_log_events := fun _ _ _ _ _ => .error (.clientError (str "AccessDenied"))
  ec2_describe_instance_status := fun _ => .error (.clientError (str "AccessDenied"))
  ecs_list_clusters := .error (.clientError (str "AccessDenied"))
  ecs_describe_tasks := fun _ _ => .error (.clientError (str "AccessDenied"))
  elbv2_describe_load_balancers := fun _ => .error (.clientError (str "AccessDenied"))
  elbv2_describe_target_groups := fun _ => .error (.clientError (str "AccessDenied"))
  elbv2_describe_target_health := fun _ => .error (.clientError (str "AccessDenied"))
  cfn_list_stacks := .error (.clientError (str "AccessDenied"))
  cfn_describe_stack_events := fun _ => .error (.clientError (str "AccessDenied"))
  cw_get_metric_statistics := fun _ _ _ _ _ _ => .error (.clientError (str "AccessDenied"))
  ec2_describe_tags := fun _ => .error (.clientError (str "AccessDenied"))

/-- A backend with no reachable endpoint: every call raises a connection
error, which is not a `ClientError`. -/
def unreachableBackend : Backend where
  logs_get_log_events := fun _ _ _ _ _ => .error (.otherError (str "EndpointConnectionError"))
  ec2_describe_instance_status := fun _ => .error (.otherError (str "EndpointConnectionError"))
  ecs_list_clusters := .error (.otherError (str "EndpointConnectionError"))
  ecs_describe_tasks := fun _ _ => .error (.otherError (str "EndpointConnectionError"))
  elbv2_describe_load_balancers := fun _ => .error (.otherError (str "EndpointConnectionError"))
  elbv2_describe_target_groups := fun _ => .error (.otherError (str "EndpointConnectionError"))
  elbv2_describe_target_health := fun _ => .error (.otherError (str "EndpointConnectionError"))
  cfn_list_stacks := .error (.otherError (str "EndpointConnectionError"))
  cfn_describe_stack_events := fun _ => .error (.otherError (str "EndpointConnectionError"))
  cw_get_metric_statistics := fun _ _ _ _ _ _ => .error (.otherError (str "EndpointConnectionError"))
  ec2_describe_tags := fun _ => .error (.otherError (str "EndpointConnectionError"))

/-- Modelled from the spec: the log-storage backend boundary contract
(spec section 6) — a recent-log query returns the at-most-`limit`
most-recent available entries with timestamp at or after the start time,
newest-first.  The repository's own code only passes the query (group,
stream, `startTime`, `limit=50`, `startFromHead=False`); the delivery
itself is CloudWatch's and is not in `src/`.  `available` is the full
event list of the stream, oldest-first. -/
def specLogBackend (available : List LogEvent) :
    Str → Str → Int → Nat → Bool → Py LogEventsResp :=
  fun _ _ startTime limit _ =>
    .ok ⟨((available.filter (fun e => startTime ≤ e.timestamp)).reverse).take limit⟩

/-- A backend whose log store holds `available` and whose other services
all fail with a `ClientError`. -/
def mkLogBackend (available : List LogEvent) : Backend :=
  { failingBackend with logs_get_log_events := specLogBackend available }

/-- A backend whose ECS control plane knows the clusters `cs` and answers
`describe_tasks` with `d`; every other service fails with a `ClientError`. -/
def mkEcsBackend (cs : List Str) (d : Str → Str → Py TasksResp) : Backend :=
  { failingBackend with ecs_list_clusters := .ok ⟨cs⟩, ecs_describe_tasks := d }

/-! ## Named predicates, traces and concrete inputs used by the theorems -/

/-- No detection pattern of `extract_log_context` matches the input:
none of the four kind conditions holds and neither independent message
scan (container id, load balancer) finds anything. -/
def noPatternMatch (g s m : Str) : Prop :=
  ecsCond g s = false ∧ lambdaCond g = false ∧ ec2Cond g = false ∧
  k8sCond s m = false ∧ containerIdOf m = none ∧ albOf m = none

/-- The backend call fails with a `botocore ClientError`. -/
def IsClientFail (x : Py α) : Prop := ∃ msg, x = .error (.clientError msg)

instance {ε α : Type} [DecidableEq ε] [DecidableEq α] : DecidableEq (Except ε α) := by
  intro a b
  cases a <;> cases b
  case error.error e1 e2 => exact decidable_of_iff (e1 = e2) (by simp)
  case ok.ok a1 a2 => exact decidable_of_iff (a1 = a2) (by simp)
  all_goals exact isFalse (by simp)

/-- The 80-event log store used by the C7 witness: timestamps 0..79. -/
def wAvail : List LogEvent :=
  (List.range 80).map (fun i => { timestamp := (i : Int), message := str "m" })

/-- A per-cluster describe outcome that does not stop the probe loop: an
API `ClientError`, or a successful answer with no matching task. -/
def failsOrEmpty (x : Py TasksResp) : Prop :=
  (∃ msg, x = .error (.clientError msg)) ∨ (∃ resp, x = .ok resp ∧ resp.tasks = [])

/-- The task record used by the C8 witness. -/
def wTask : TaskRec :=
  { taskArn := str "arn:aws:ecs:task/t", lastStatus := some (str "RUNNING"),
    desiredStatus := some (str "RUNNING"), healthStatus := none,
    containers := [], cpu := none, memory := none }

/-- The per-cluster describe outcomes used by the C8 witness: cluster c1
denies access, c2 knows the task, c3 would answer empty. -/
def wDescribe : Str → Py TasksResp := fun c =>
  if c = str "c1" then .error (.clientError (str "AccessDenied"))
  else if c = str "c2" then .ok ⟨[wTask]⟩
  else .ok ⟨[]⟩

/-- The call returned a value (no exception escaped). -/
def pyOk (x : Py α) : Prop := ∃ v, x = .ok v

/-- The outcome is a value or a `ClientError` — never any other exception. -/
def OkOrClient (x : Py α) : Prop := ∀ msg, ¬ x = .error (.otherError msg)

/-- Every backend failure is an API `ClientError` (no connection errors,
no timeouts, no other exception classes). -/
structure ClientFailOnly (B : Backend) : Prop where
  logsOk : ∀ g s st lim hd, OkOrClient (B.logs_get_log_events g s st lim hd)
  ec2Ok : ∀ i, OkOrClient (B.ec2_describe_instance_status i)
  clustersOk : OkOrClient B.ecs_list_clusters
  tasksOk : ∀ c t, OkOrClient (B.ecs_describe_tasks c t)
  lbOk : ∀ n, OkOrClient (B.elbv2_describe_load_balancers n)
  tgOk : ∀ a, OkOrClient (B.elbv2_describe_target_groups a)
  thOk : ∀ a, OkOrClient (B.elbv2_describe_target_health a)
  stacksOk : OkOrClient B.cfn_list_stacks
  eventsOk : ∀ n, OkOrClient (B.cfn_describe_stack_events n)
  cwOk : ∀ n d mn st a b, OkOrClient (B.cw_get_metric_statistics n d mn st a b)
  tagsOk : ∀ i, OkOrClient (B.ec2_describe_tags i)

/-- The client invocations `gather_all_context` performs for an alert, in
source order, read off the selection conditions of the source. -/
def expectedCalls (alert : Alert) : List Call :=
  let log_context : Option LogContext :=
    match alert.log_group, alert.log_stream with
    | some g, some s => some (extract_log_context g s (alert.message.getD []))
    | _, _ => none
  let infra_type : Option Str := log_context.map (fun lc => lc.infrastructure_type)
  let resource_id : Option Str := log_context.bind (fun lc => lc.resource_id)
  (match alert.log_group, alert.log_stream with
   | some _, some _ => [Call.recentLogs]
   | _, _ => []) ++
  (if infra_type == some (str "ecs") && truthyOptStr resource_id then [Call.ecsHealth]
   else if infra_type == some (str "ec2") && truthyOptStr resource_id then [Call.ec2Status]
   else []) ++
  (if truthyOptStr (log_context.bind (fun lc => lc.load_balancer_name))
   then [Call.albHealth] else []) ++
  [Call.cfnChanges] ++
  (match alert.log_group with
   | some _ => [Call.cwMetrics]
   | none => []) ++
  (if truthyOptStr resource_id then [Call.resourceTags] else [])

/-- The classification the aggregator performs for an alert: present only
when both log fields are (the source guards both the classification and
the recent-log fetch on them). -/
def logCtxOf (alert : Alert) : Option LogContext :=
  match alert.log_group, alert.log_stream with
  | some g, some s => some (extract_log_context g s (alert.message.getD []))
  | _, _ => none

/-- The alert used by the C6 witness: an ECS log group and a 32-hex task
stream. -/
def wEcsAlert : Alert :=
  { log_group := some (str "/ecs/c/s"),
    log_stream := some (str "0123456789abcdef0123456789abcdef"),
    message := none }

/-- The context the C6 witness run produces on the all-`ClientError`
backend. -/
def wEcsCtx : EnrichedContext :=
  { log_context := some (extract_log_context (str "/ecs/c/s")
      (str "0123456789abcdef0123456789abcdef") []),
    compute := some { ecs := none }, load_balancers := none,
    recent_changes := [], metrics := some { period := str "30 minutes" },
    resource_tags := [], recent_logs := some [] }

/-- A rendered line that looks like a section header: the source's headers
are exactly the lines starting with two hashes (the first section) or a
newline and two hashes (all later sections); every other emitted line
starts with a dash, a bracket or a space. -/
def isHeaderLike (s : Str) : Bool :=
  match s with
  | '#' :: '#' :: _ => true
  | '\n' :: '#' :: '#' :: _ => true
  | _ => false

/-- The section headers of `format_context_for_prompt`, in the fixed
source order (the metrics header embeds the period text of the context). -/
def canonHeaders (ctx : EnrichedContext) : List Str :=
  [str "## Infrastructure Context",
   str "\n## Recent Log Entries (last 10 minutes)",
   str "\n## EC2 Instance Health",
   str "\n## ECS Task Health",
   str "\n## Load Balancer Health",
   str "\n## Recent Infrastructure Changes (last 24h)",
   str "\n## CloudWatch Metrics ("
     ++ (match ctx.metrics with | some m => m.period | none => []) ++ str ")",
   str "\n## Resource Tags"]

/-- A concrete context exercising the formatter policy: one log entry,
every other backing field absent. -/
def wFmtCtx : EnrichedContext :=
  { recent_logs := some [{ timestamp := 0, message := str "boom" }] }

/-! ## Basic lemmas about the string scanners -/

theorem isPrefixB_iff (p s : Str) : isPrefixB p s = true ↔ p <+: s := by
  induction p generalizing s with
  | nil => simp [isPrefixB]
  | cons a as ih =>
    cases s with
    | nil => simp [isPrefixB]
    | cons b bs =>
      simp only [isPrefixB, Bool.and_eq_true, beq_iff_eq, ih, List.cons_prefix_cons]

theorem containsStr_iff (hay needle : Str) :
    containsStr hay needle = true ↔ needle <:+: hay := by
  induction hay with
  | nil =>
    simp [containsStr, isPrefixB_iff]
  | cons c t ih =>
    simp only [containsStr, Bool.or_eq_true, isPrefixB_iff, ih, List.infix_cons_iff]

theorem contains_map_of_contains (f : Char → Char) (s t : Str)
    (h : containsStr s t = true) : containsStr (s.map f) (t.map f) = true := by
  rw [containsStr_iff] at h ⊢
  exact h.map f

theorem firstSome_eq_some {f : Str → Option α} {s : Str} {r : α}
    (h : firstSome f s = some r) : ∃ s', s' <:+ s ∧ f s' = some r := by
  induction s with
  | nil => exact ⟨[], List.suffix_refl [], h⟩
  | cons c cs ih =>
    rw [firstSome] at h
    cases hf : f (c :: cs) with
    | some r' =>
      rw [hf] at h
      exact ⟨c :: cs, List.suffix_refl _, by simpa using hf.trans (by simpa using h)⟩
    | none =>
      rw [hf] at h
      obtain ⟨s', hsuf, hfs⟩ := ih h
      exact ⟨s', hsuf.trans (List.suffix_cons c cs), hfs⟩

theorem firstSome_isSome_of_suffix {f : Str → Option α} {s s' : Str}
    (hsuf : s' <:+ s) (h : (f s').isSome) : (firstSome f s).isSome := by
  induction s with
  | nil =>
    rw [List.suffix_nil.mp hsuf] at h
    simpa [firstSome] using h
  | cons c cs ih =>
    rcases List.suffix_cons_iff.mp hsuf with heq | htail
    · subst heq
      rw [firstSome]
      cases hf : f (c :: cs) with
      | some r => simp
      | none => rw [hf] at h; simp at h
    · rw [firstSome]
      cases hf : f (c :: cs) with
      | some r => simp
      | none => exact ih htail

theorem takeWhile_pref (p : α → Bool) (l : List α) : l.takeWhile p <+: l :=
  ⟨l.dropWhile p, List.takeWhile_append_dropWhile p l⟩

theorem take_pref (n : Nat) (l : List α) : l.take n <+: l :=
  ⟨l.drop n, List.take_append_drop n l⟩

theorem matchEx_eq_some {p s rest : Str} (h : matchEx p s = some rest) :
    s = p ++ rest := by
  induction p generalizing s with
  | nil => simpa [matchEx] using h
  | cons a as ih =>
    cases s with
    | nil => simp [matchEx] at h
    | cons b bs =>
      rw [matchEx] at h
      split at h
      · next heq => simpa [beq_iff_eq.mp heq] using congrArg (List.cons b) (ih h)
      · exact absurd h (by simp)

/-! ## Lemmas about the individual pattern scanners -/

theorem tryHex32_sound {s t : Str} (h : tryHex32 s = some t) :
    t.length = 32 ∧ t.all isHexDig = true ∧ t <+: s := by
  rw [tryHex32] at h
  split at h
  · next hcond =>
    obtain ⟨hlen, hhex⟩ : (s.take 32).length = 32 ∧ (s.take 32).all isHexDig = true := by
      simpa using hcond
    obtain rfl : s.take 32 = t := by simpa using h
    exact ⟨hlen, hhex, take_pref 32 s⟩
  · exact absurd h (by simp)

theorem hex32_sound {s t : Str} (h : hex32 s = some t) :
    t.length = 32 ∧ t.all isHexDig = true ∧ t <:+: s := by
  obtain ⟨s', hsuf, hf⟩ := firstSome_eq_some h
  obtain ⟨hlen, hhex, hpre⟩ := tryHex32_sound hf
  exact ⟨hlen, hhex, hpre.isInfix.trans hsuf.isInfix⟩

theorem hex32_complete {s : Str}
    (h : ∃ t, t <:+: s ∧ t.length = 32 ∧ t.all isHexDig = true) :
    ∃ t, hex32 s = some t ∧ t.length = 32 ∧ t.all isHexDig = true ∧ t <:+: s := by
  obtain ⟨t, ⟨u, v, huv⟩, hlen, hhex⟩ := h
  have hsome : (firstSome tryHex32 s).isSome := by
    apply @firstSome_isSome_of_suffix _ tryHex32 s (t ++ v) ⟨u, by rw [← huv]; simp⟩
    have htake : (t ++ v).take 32 = t := by
      rw [← hlen]; exact List.take_left t v
    rw [tryHex32, htake]
    simp [hlen, hhex]
  obtain ⟨t', ht'⟩ := Option.isSome_iff_exists.mp hsome
  obtain ⟨h1, h2, h3⟩ := hex32_sound ht'
  exact ⟨t', ht', h1, h2, h3⟩

theorem tryEcsCluster_sound {s c : Str} (h : tryEcsCluster s = some c) :
    c ≠ [] ∧ (∀ x ∈ c, ¬ x = '/') ∧ (str "/ecs/" ++ c) <+: s := by
  rw [tryEcsCluster] at h
  cases hm : matchEx (str "/ecs/") s with
  | none => rw [hm] at h; exact absurd h (by simp)
  | some rest =>
    simp only [hm] at h
    cases hseg : rest.takeWhile (fun c => c != '/') with
    | nil => simp only [hseg] at h; exact absurd h (by simp)
    | cons x xs =>
      simp only [hseg] at h
      obtain rfl : x :: xs = c := by simpa using h
      refine ⟨by simp, ?_, ?_⟩
      · intro y hy
        have : y ∈ rest.takeWhile (fun c => c != '/') := by rw [hseg]; exact hy
        simpa using List.mem_takeWhile_imp this
      · rw [matchEx_eq_some hm]
        obtain ⟨r, hr⟩ := takeWhile_pref (fun c => c != '/') rest
        rw [hseg] at hr
        exact ⟨r, by rw [List.append_assoc, hr]⟩

theorem ecsCluster_sound {g c : Str} (h : ecsCluster g = some c) :
    c ≠ [] ∧ (∀ x ∈ c, ¬ x = '/') ∧ containsStr g (str "/ecs/" ++ c) = true := by
  obtain ⟨s', hsuf, hf⟩ := firstSome_eq_some h
  obtain ⟨h1, h2, h3⟩ := tryEcsCluster_sound hf
  exact ⟨h1, h2, (containsStr_iff _ _).mpr (h3.isInfix.trans hsuf.isInfix)⟩

theorem k8sCond_of_claim {s m : Str}
    (h : containsStr (lowerStr m) (str "kubernetes") = true ∨
         containsStr s (str "pod") = true) : k8sCond s m = true := by
  rw [k8sCond]
  rcases h with h | h
  · simp [h]
  · have hmap := contains_map_of_contains Char.toLower s (str "pod") h
    have hpod : (str "pod").map Char.toLower = str "pod" := by decide
    rw [hpod] at hmap
    simp [lowerStr, hmap]

/-! ## Claims about the classifier -/

/-- C3: for all inputs, `extract_log_context` is total and deterministic
(it is a Lean function), stores exactly one infrastructure kind (the
single `infrastructure_type` field), which is always one of `unknown`,
`ecs` (containerTask), `lambda` (serverlessFunction), `ec2`
(virtualMachine) or `kubernetes` (orchestratedPod); and when no pattern
matches, the kind is `unknown` and every resource field (resource id, pod
name, node name, container id, cluster name, task id, load balancer name,
namespace) is empty. -/
theorem classify_total_kinds (g s m : Str) :
    ((extract_log_context g s m).infrastructure_type = str "unknown" ∨
     (extract_log_context g s m).infrastructure_type = str "ecs" ∨
     (extract_log_context g s m).infrastructure_type = str "lambda" ∨
     (extract_log_context g s m).infrastructure_type = str "ec2" ∨
     (extract_log_context g s m).infrastructure_type = str "kubernetes") ∧
    (noPatternMatch g s m →
      (extract_log_context g s m).infrastructure_type = str "unknown" ∧
      (extract_log_context g s m).resource_id = none ∧
      (extract_log_context g s m).pod_name = none ∧
      (extract_log_context g s m).node_name = none ∧
      (extract_log_context g s m).container_id = none ∧
      (extract_log_context g s m).cluster_name = none ∧
      (extract_log_context g s m).task_id = none ∧
      (extract_log_context g s m).load_balancer_name = none ∧
      (extract_log_context g s m).namespace_val = none) := by
  constructor
  · cases hk : k8sCond s m <;> cases he : ecsCond g s <;>
      cases hl : lambdaCond g <;> cases h2 : ec2Cond g <;>
      simp [extract_log_context, hk, he, hl, h2]
  · rintro ⟨he, hl, h2, hk, hcid, halb⟩
    simp [extract_log_context, he, hl, h2, hk, hcid, halb]

/-- Witness for C3 at a concrete unmatched input. -/
theorem classify_total_kinds_witness :
    noPatternMatch (str "garbage") (str "stream") (str "hello") ∧
    (extract_log_context (str "garbage") (str "stream") (str "hello")).infrastructure_type
      = str "unknown" ∧
    (extract_log_context (str "garbage") (str "stream") (str "hello")).resource_id = none ∧
    (extract_log_context (str "garbage") (str "stream") (str "hello")).load_balancer_name
      = none := by
  have hnm : noPatternMatch (str "garbage") (str "stream") (str "hello") := by
    refine ⟨by decide, by decide, by decide, by decide, by decide, by decide⟩
  have h := (classify_total_kinds (str "garbage") (str "stream") (str "hello")).2 hnm
  exact ⟨hnm, h.1, h.2.1, h.2.2.2.2.2.2.2.1⟩

/-- C4: whenever the message mentions `kubernetes` (case-insensitively) or
the stream mentions `pod`, the classifier sets the kind to `kubernetes`
(orchestratedPod), overwriting whatever the earlier ECS/Lambda/EC2 path
rules chose, and the pod name, node name and namespace are exactly what
the labelled key:value scanners extract from the message, each
independently optional. -/
theorem classify_k8s_override (g s m : Str)
    (h : containsStr (lowerStr m) (str "kubernetes") = true ∨
         containsStr s (str "pod") = true) :
    (extract_log_context g s m).infrastructure_type = str "kubernetes" ∧
    (extract_log_context g s m).pod_name = podNameOf m ∧
    (extract_log_context g s m).node_name = nodeNameOf m ∧
    (extract_log_context g s m).namespace_val = namespaceOf m := by
  have hk := k8sCond_of_claim h
  cases he : ecsCond g s <;> cases hl : lambdaCond g <;> cases h2 : ec2Cond g <;>
    simp [extract_log_context, hk, he, hl, h2]

/-- Witness for C4: the spec's own example message, on a group/stream that
also matches the container-task pattern. -/
theorem classify_k8s_override_witness :
    (containsStr (lowerStr (str "kubernetes pod_name: web-1 node_name: ip-10-0-1-5"))
        (str "kubernetes") = true ∨
      containsStr (str "task/0123456789abcdef0123456789abcdef") (str "pod") = true) ∧
    ecsCond (str "/ecs/my-cluster/service") (str "task/0123456789abcdef0123456789abcdef")
      = true ∧
    (extract_log_context (str "/ecs/my-cluster/service")
        (str "task/0123456789abcdef0123456789abcdef")
        (str "kubernetes pod_name: web-1 node_name: ip-10-0-1-5")).infrastructure_type
      = str "kubernetes" ∧
    (extract_log_context (str "/ecs/my-cluster/service")
        (str "task/0123456789abcdef0123456789abcdef")
        (str "kubernetes pod_name: web-1 node_name: ip-10-0-1-5")).pod_name
      = some (str "web-1") ∧
    (extract_log_context (str "/ecs/my-cluster/service")
        (str "task/0123456789abcdef0123456789abcdef")
        (str "kubernetes pod_name: web-1 node_name: ip-10-0-1-5")).node_name
      = some (str "ip-10-0-1-5") := by
  have h := classify_k8s_override (str "/ecs/my-cluster/service")
      (str "task/0123456789abcdef0123456789abcdef")
      (str "kubernetes pod_name: web-1 node_name: ip-10-0-1-5") (Or.inl (by decide))
  exact ⟨Or.inl (by decide), by decide, h.1, h.2.1.trans (by decide),
    h.2.2.1.trans (by decide)⟩

/-- Counterexample for C5 as stated: the group matches the
container-orchestration pattern and the stream carries a 32-hex token,
yet the kind is `kubernetes`, not `ecs`, because the message mentions
Kubernetes and the override rule rewrites the kind. -/
theorem classify_ecs_path_cex :
    (extract_log_context (str "/ecs/my-cluster/service")
      (str "0123456789abcdef0123456789abcdef") (str "kubernetes")).infrastructure_type
      = str "kubernetes" ∧
    ¬ (extract_log_context (str "/ecs/my-cluster/service")
      (str "0123456789abcdef0123456789abcdef") (str "kubernetes")).infrastructure_type
      = str "ecs" := by decide

/-- C5 (amended): when the group contains `/ecs/`, the cluster scanner
finds a segment `c`, the stream contains a 32-hex token, and neither
Kubernetes signal is present (no `kubernetes` in the lowercased message,
no `pod` in the lowercased stream), classification yields kind `ecs`,
cluster name `c` — a nonempty slash-free segment that directly follows a
`/ecs/` marker in the group — and a resource id that is verbatim a 32-hex
substring of the stream, equal to the extracted task id. -/
theorem classify_ecs_path (g s m c : Str)
    (hg : containsStr g (str "/ecs/") = true)
    (hc : ecsCluster g = some c)
    (hhex : ∃ t, t <:+: s ∧ t.length = 32 ∧ t.all isHexDig = true)
    (hk1 : containsStr (lowerStr m) (str "kubernetes") = false)
    (hk2 : containsStr (lowerStr s) (str "pod") = false) :
    (extract_log_context g s m).infrastructure_type = str "ecs" ∧
    (extract_log_context g s m).cluster_name = some c ∧
    c ≠ [] ∧ (∀ x ∈ c, ¬ x = '/') ∧ containsStr g (str "/ecs/" ++ c) = true ∧
    ∃ t, (extract_log_context g s m).resource_id = some t ∧
      (extract_log_context g s m).task_id = some t ∧
      t.length = 32 ∧ t.all isHexDig = true ∧ t <:+: s := by
  have he : ecsCond g s = true := by rw [ecsCond]; simp [hg]
  have hk : k8sCond s m = false := by rw [k8sCond, hk1, hk2]; rfl
  obtain ⟨t, ht, h1, h2, h3⟩ := hex32_complete hhex
  obtain ⟨hc1, hc2, hc3⟩ := ecsCluster_sound hc
  refine ⟨?_, ?_, hc1, hc2, hc3, t, ?_, ?_, h1, h2, h3⟩ <;>
    simp [extract_log_context, he, hk, hc, ht]

/-- Witness for C5 at the spec's example group. -/
theorem classify_ecs_path_witness :
    containsStr (str "/ecs/my-cluster/service") (str "/ecs/") = true ∧
    ecsCluster (str "/ecs/my-cluster/service") = some (str "my-cluster") ∧
    (extract_log_context (str "/ecs/my-cluster/service")
        (str "task-0123456789abcdef0123456789abcdef") (str "hello")).infrastructure_type
      = str "ecs" ∧
    (extract_log_context (str "/ecs/my-cluster/service")
        (str "task-0123456789abcdef0123456789abcdef") (str "hello")).cluster_name
      = some (str "my-cluster") ∧
    ∃ t, (extract_log_context (str "/ecs/my-cluster/service")
        (str "task-0123456789abcdef0123456789abcdef") (str "hello")).resource_id
      = some t ∧ t <:+: str "task-0123456789abcdef0123456789abcdef" := by
  have h := classify_ecs_path (str "/ecs/my-cluster/service")
      (str "task-0123456789abcdef0123456789abcdef") (str "hello") (str "my-cluster")
      (by decide) (by decide)
      ⟨str "0123456789abcdef0123456789abcdef",
        ⟨str "task-", [], by decide⟩, by decide, by decide⟩
      (by decide) (by decide)
  obtain ⟨t, ht1, _, _, _, ht5⟩ := h.2.2.2.2.2
  exact ⟨by decide, by decide, h.1, h.2.1, t, ht1, ht5⟩

/-! ## Claims about the status clients -/

theorem metricsLoop_client_fail {B : Backend} (ns : Option Str) (dims : List (Str × Str))
    (t1 t2 : Int)
    (h : ∀ n d mn st a b, IsClientFail (B.cw_get_metric_statistics n d mn st a b)) :
    ∀ (qs : List (Str × MetricKey × Str)) (md : MetricsData),
      metricsLoop B ns dims t1 t2 qs md = .ok md := by
  intro qs
  induction qs with
  | nil => intro md; rfl
  | cons q rest ih =>
    intro md
    obtain ⟨mn, key, st⟩ := q
    obtain ⟨msg, hmsg⟩ := h ns dims mn st t1 t2
    simp [metricsLoop, hmsg, ih]

/-- Counterexample for C2 as stated: a transport failure (a connection
error, which is not a `ClientError`) escapes the recent-logs client and
the EC2 status client unchanged instead of being converted into an
Unavailable result. -/
theorem client_boundary_cex :
    get_recent_logs unreachableBackend 0 (str "g") (str "s") 10
      = .error (.otherError (str "EndpointConnectionError")) ∧
    get_ec2_instance_status unreachableBackend (str "i-0123456789abcdef0")
      = .error (.otherError (str "EndpointConnectionError")) := by decide

/-- C2 (amended): every status client converts a `ClientError` raised by
its backing system into its Unavailable result (`none` or the empty
collection; the metrics client keeps its period-only shell), and never
lets a `ClientError` escape; exceptions that are not `ClientError`s
(transport failures, timeouts) are not caught and propagate. -/
theorem clients_absorb_client_errors (B : Backend) (now lb lh : Int) (lm : Nat)
    (g s iid tid lbn rid : Str) (rtype : Option Str) :
    (IsClientFail (B.logs_get_log_events g s (now - lb * 60000) 50 false) →
      get_recent_logs B now g s lb = .ok []) ∧
    (IsClientFail (B.ec2_describe_instance_status iid) →
      get_ec2_instance_status B iid = .ok none) ∧
    (IsClientFail B.ecs_list_clusters →
      get_ecs_task_health B tid none = .ok none) ∧
    ((∀ x, IsClientFail (B.elbv2_describe_load_balancers x)) →
      2 ≤ (splitOn '/' lbn).length →
      get_alb_target_health B lbn = .ok none) ∧
    (IsClientFail B.cfn_list_stacks →
      get_recent_cloudformation_changes B now lh = .ok []) ∧
    ((∀ n d mn st a b, IsClientFail (B.cw_get_metric_statistics n d mn st a b)) →
      get_cloudwatch_metrics B now g lm
        = .ok (some { period := natToStr lm ++ str " minutes" })) ∧
    ((∀ x, IsClientFail (B.ec2_describe_tags x)) →
      get_resource_tags B rid rtype = .ok []) := by
  refine ⟨?_, ?_, ?_, ?_, ?_, ?_, ?_⟩
  · rintro ⟨msg, hmsg⟩
    simp [get_recent_logs, hmsg, catchClient, pyStep]
  · rintro ⟨msg, hmsg⟩
    simp [get_ec2_instance_status, hmsg, catchClient, pyStep]
  · rintro ⟨msg, hmsg⟩
    simp [get_ecs_task_health, hmsg, catchClient, pyStep]
  · intro h hlen
    have hidx : pyIndexNeg2 (splitOn '/' lbn)
        = .ok ((splitOn '/' lbn).get ⟨(splitOn '/' lbn).length - 2, by omega⟩) := by
      simp [pyIndexNeg2, hlen]
    obtain ⟨msg, hmsg⟩ := h ((splitOn '/' lbn).get ⟨(splitOn '/' lbn).length - 2, by omega⟩)
    simp only [List.get_eq_getElem] at hidx hmsg
    simp [get_alb_target_health, hidx, hmsg, catchClient, pyStep]
  · rintro ⟨msg, hmsg⟩
    simp [get_recent_cloudformation_changes, hmsg, catchClient, pyStep]
  · intro h
    have hLam := metricsLoop_client_fail (B := B) (some (str "AWS/Lambda"))
        [(str "FunctionName", (splitOn '/' g).getLast?.getD [])] (now - (lm : Int) * 60000) now h
    have hEcs := metricsLoop_client_fail (B := B) (some (str "AWS/ECS")) []
        (now - (lm : Int) * 60000) now h
    cases hb1 : containsStr g (str "/lambda/") <;> cases hb2 : containsStr g (str "/ecs/") <;>
      simp [get_cloudwatch_metrics, hb1, hb2, hLam, hEcs, catchClient, pyStep]
  · intro h
    cases heq : rtype == some (str "ec2")
    · simp [get_resource_tags, heq, catchClient, pyStep]
    · obtain ⟨msg, hmsg⟩ := h rid
      simp [get_resource_tags, heq, hmsg, catchClient, pyStep]

/-- Witness for C2 on the all-`ClientError` backend. -/
theorem clients_absorb_client_errors_witness :
    IsClientFail (failingBackend.logs_get_log_events (str "g") (str "s")
      ((0 : Int) - 10 * 60000) 50 false) ∧
    get_recent_logs failingBackend 0 (str "g") (str "s") 10 = .ok [] ∧
    get_ec2_instance_status failingBackend (str "i-0") = .ok none ∧
    get_ecs_task_health failingBackend (str "t") none = .ok none ∧
    get_alb_target_health failingBackend (str "app/web/0123456789abcdef") = .ok none ∧
    get_recent_cloudformation_changes failingBackend 0 24 = .ok [] ∧
    get_cloudwatch_metrics failingBackend 0 (str "/aws/lambda/f") 30
      = .ok (some { period := str "30 minutes" }) ∧
    get_resource_tags failingBackend (str "i-0") (some (str "ec2")) = .ok [] := by
  have h := clients_absorb_client_errors failingBackend 0 10 24 30 (str "g") (str "s")
    (str "i-0") (str "t") (str "app/web/0123456789abcdef") (str "i-0") (some (str "ec2"))
  refine ⟨⟨str "AccessDenied", rfl⟩,
    h.1 ⟨str "AccessDenied", rfl⟩,
    h.2.1 ⟨str "AccessDenied", rfl⟩,
    h.2.2.1 ⟨str "AccessDenied", rfl⟩,
    h.2.2.2.1 (fun _ => ⟨str "AccessDenied", rfl⟩) (by decide),
    h.2.2.2.2.1 ⟨str "AccessDenied", rfl⟩,
    (h.2.2.2.2.2.1 (fun _ _ _ _ _ _ => ⟨str "AccessDenied", rfl⟩)).trans (by decide),
    h.2.2.2.2.2.2 (fun _ => ⟨str "AccessDenied", rfl⟩)⟩

/-- C7: over the spec-modelled log backend, `get_recent_logs` returns at
most 50 entries restricted to the trailing 10-minute window, newest-first
(for a time-sorted store), each message truncated to its first 500
characters; with 80 available entries in the window the result is exactly
the 50 most recent. -/
theorem recent_logs_cap (available : List LogEvent) (now : Int) (g s : Str)
    (hsort : (available.map (fun e => e.timestamp)).Pairwise (· ≤ ·))
    (hlen : (available.filter (fun e => now - 10 * 60000 ≤ e.timestamp)).length = 80) :
    ∃ l, get_recent_logs (mkLogBackend available) now g s 10 = .ok l ∧
      l = ((available.filter (fun e => now - 10 * 60000 ≤ e.timestamp)).reverse.take 50).map
            (fun e => { timestamp := e.timestamp, message := e.message.take 500 }) ∧
      l.length = 50 ∧
      (∀ e ∈ l, e.message.length ≤ 500) ∧
      (l.map (fun e => e.timestamp)).Pairwise (fun a b => b ≤ a) ∧
      l.map (fun e => e.timestamp)
        = ((available.filter (fun e => now - 10 * 60000 ≤ e.timestamp)).map
            (fun e => e.timestamp)).reverse.take 50 := by
  refine ⟨_, by simp [get_recent_logs, mkLogBackend, specLogBackend, catchClient, pyStep], rfl,
    ?_, ?_, ?_, ?_⟩
  · simp only [List.length_map, List.length_take, List.length_reverse]
    rw [hlen]; decide
  · intro e he
    simp only [List.mem_map] at he
    obtain ⟨a, _, rfl⟩ := he
    simp [List.length_take]
  · have h1 : (available.filter (fun e => now - 10 * 60000 ≤ e.timestamp)).Pairwise
        (fun a b => a.timestamp ≤ b.timestamp) :=
      (List.pairwise_map.mp hsort).filter _
    have h2 : (available.filter (fun e => now - 10 * 60000 ≤ e.timestamp)).reverse.Pairwise
        (fun a b => b.timestamp ≤ a.timestamp) := by
      rw [List.pairwise_reverse]; exact h1
    have h3 := h2.sublist (List.take_sublist 50 _)
    simp only [List.map_map, List.pairwise_map]
    exact h3.imp (fun hab => hab)
  · have hfun : ((fun (e : LogEntry) => e.timestamp) ∘
        (fun (e : LogEvent) =>
          ({ timestamp := e.timestamp, message := e.message.take 500 } : LogEntry)))
        = fun (e : LogEvent) => e.timestamp := rfl
    simp [List.map_map, List.map_take, List.map_reverse, hfun]

/-- Witness for C7: 80 events in the window, the fetch returns exactly 50. -/
theorem recent_logs_cap_witness :
    ((wAvail.map (fun e => e.timestamp)).Pairwise (· ≤ ·)) ∧
    (wAvail.filter (fun e => (600000 : Int) - 10 * 60000 ≤ e.timestamp)).length = 80 ∧
    ∃ l, get_recent_logs (mkLogBackend wAvail) 600000 (str "g") (str "s") 10 = .ok l ∧
      l.length = 50 := by
  have hsort : (wAvail.map (fun e => e.timestamp)).Pairwise (· ≤ ·) := by decide
  have hlen : (wAvail.filter (fun e => (600000 : Int) - 10 * 60000 ≤ e.timestamp)).length = 80 := by
    decide
  obtain ⟨l, hl, _, hlen50, _, _⟩ := recent_logs_cap wAvail 600000 (str "g") (str "s") hsort hlen
  exact ⟨hsort, hlen, l, hl, hlen50⟩

theorem probeClusters_skip_all (d : Str → Py TasksResp) (tid : Str) :
    ∀ cs, (∀ c ∈ cs, failsOrEmpty (d c)) →
      probeClusters d tid cs = (.ok none, cs) := by
  intro cs
  induction cs with
  | nil => intro _; rfl
  | cons c rest ih =>
    intro h
    have ihr := ih (fun x hx => h x (List.mem_cons_of_mem c hx))
    rcases h c (List.mem_cons_self c rest) with ⟨msg, hmsg⟩ | ⟨resp, hr, hte⟩
    · simp [probeClusters, hmsg, ihr]
    · simp [probeClusters, hr, hte, ihr]

theorem probeClusters_first (d : Str → Py TasksResp) (tid : Str) :
    ∀ pre c post resp task ts2, (∀ c' ∈ pre, failsOrEmpty (d c')) →
      d c = .ok resp → resp.tasks = task :: ts2 →
      probeClusters d tid (pre ++ c :: post)
        = (.ok (some (mkTaskHealth tid c task)), pre ++ [c]) := by
  intro pre
  induction pre with
  | nil =>
    intro c post resp task ts2 _ hd ht
    simp [probeClusters, hd, ht]
  | cons p ps ih =>
    intro c post resp task ts2 h hd ht
    have ihr := ih c post resp task ts2 (fun x hx => h x (List.mem_cons_of_mem p hx)) hd ht
    rcases h p (List.mem_cons_self p ps) with ⟨msg, hmsg⟩ | ⟨resp2, hr2, hte2⟩
    · simp [probeClusters, hmsg, ihr]
    · simp [probeClusters, hr2, hte2, ihr]

theorem probeClusters_probed_prefix (d : Str → Py TasksResp) (tid : Str) :
    ∀ cs, (probeClusters d tid cs).2 <+: cs := by
  intro cs
  induction cs with
  | nil => exact List.prefix_refl []
  | cons c rest ih =>
    rw [probeClusters]
    cases hd : d c with
    | error e =>
      cases e with
      | clientError msg => simpa using ih
      | otherError msg => exact ⟨rest, rfl⟩
    | ok resp =>
      cases ht : resp.tasks with
      | nil => simp only [ht]; simpa using ih
      | cons task ts2 => simp only [ht]; exact ⟨rest, rfl⟩

/-- Counterexample for C8 as stated: a describe failure that is not a
`ClientError` (a connect timeout) aborts the probe and propagates instead
of skipping to the next cluster or returning Unavailable. -/
theorem ecs_probe_cex :
    get_ecs_task_health (mkEcsBackend [str "c1"]
        (fun _ _ => .error (.otherError (str "ConnectTimeoutError")))) (str "t") none
      = .error (.otherError (str "ConnectTimeoutError")) ∧
    ¬ get_ecs_task_health (mkEcsBackend [str "c1"]
        (fun _ _ => .error (.otherError (str "ConnectTimeoutError")))) (str "t") none
      = .ok none := by decide

/-- C8 (amended): with no owning cluster supplied, `get_ecs_task_health`
probes the known clusters in list order and the probed clusters always
form a prefix of the known list; a per-cluster `ClientError` or empty
answer skips to the next cluster; the first cluster whose describe yields
a task wins, regardless of what follows it; when every cluster skips, the
result is Unavailable (`none`).  A describe failure that is not a
`ClientError` aborts the probe and propagates. -/
theorem ecs_probe_policy (d : Str → Py TasksResp) (tid : Str) :
    (∀ cs, (∀ c ∈ cs, failsOrEmpty (d c)) →
      get_ecs_task_health (mkEcsBackend cs (fun c _ => d c)) tid none = .ok none) ∧
    (∀ pre c post resp task ts2, (∀ c' ∈ pre, failsOrEmpty (d c')) →
      d c = .ok resp → resp.tasks = task :: ts2 →
      get_ecs_task_health (mkEcsBackend (pre ++ c :: post) (fun c _ => d c)) tid none
        = .ok (some (mkTaskHealth tid c task)) ∧
      (probeClusters d tid (pre ++ c :: post)).2 = pre ++ [c]) ∧
    (∀ cs, (probeClusters d tid cs).2 <+: cs) := by
  refine ⟨?_, ?_, probeClusters_probed_prefix d tid⟩
  · intro cs h
    have hp := probeClusters_skip_all d tid cs h
    simp [get_ecs_task_health, mkEcsBackend, catchClient, pyStep, hp]
  · intro pre c post resp task ts2 h hd ht
    have hp := probeClusters_first d tid pre c post resp task ts2 h hd ht
    constructor
    · simp [get_ecs_task_health, mkEcsBackend, catchClient, pyStep, hp]
    · rw [hp]

/-- Witness for C8: the task is found in the second cluster, the third is
never probed. -/
theorem ecs_probe_policy_witness :
    (∀ c' ∈ [str "c1"], failsOrEmpty (wDescribe c')) ∧
    wDescribe (str "c2") = .ok ⟨[wTask]⟩ ∧
    get_ecs_task_health (mkEcsBackend [str "c1", str "c2", str "c3"]
        (fun c _ => wDescribe c)) (str "t") none
      = .ok (some (mkTaskHealth (str "t") (str "c2") wTask)) ∧
    (probeClusters wDescribe (str "t") [str "c1", str "c2", str "c3"]).2
      = [str "c1", str "c2"] := by
  have hpre : ∀ c' ∈ [str "c1"], failsOrEmpty (wDescribe c') := by
    intro c' hc'
    rw [List.mem_singleton.mp hc']
    exact Or.inl ⟨str "AccessDenied", rfl⟩
  have h := (ecs_probe_policy wDescribe (str "t")).2.1 [str "c1"] (str "c2") [str "c3"]
    ⟨[wTask]⟩ wTask [] hpre rfl rfl
  exact ⟨hpre, rfl, h.1, h.2⟩

/-! ## Never-raises machinery for the aggregator claim -/

theorem okOrClient_cases {x : Py α} (h : OkOrClient x) :
    (∃ v, x = .ok v) ∨ (∃ m, x = .error (.clientError m)) := by
  cases x with
  | ok v => exact Or.inl ⟨v, rfl⟩
  | error e =>
    cases e with
    | clientError m => exact Or.inr ⟨m, rfl⟩
    | otherError m => exact absurd rfl (h m)

theorem pyOk_pyStep {x : Py α} {f : α → Py β} (hx : pyOk x) (hf : ∀ v, pyOk (f v)) :
    pyOk (pyStep x f) := by
  obtain ⟨v, rfl⟩ := hx
  simpa [pyStep] using hf v

theorem okOrClient_pyStep {x : Py α} {f : α → Py β} (hx : OkOrClient x)
    (hf : ∀ v, OkOrClient (f v)) : OkOrClient (pyStep x f) := by
  rcases okOrClient_cases hx with ⟨v, rfl⟩ | ⟨m, rfl⟩
  · simpa [pyStep] using hf v
  · intro msg
    simp [pyStep]

theorem okOrClient_ok (v : α) : OkOrClient (Except.ok v : Py α) := by
  intro msg; simp

theorem pyOk_catchClient {x : Py α} (d : α) (h : OkOrClient x) : pyOk (catchClient x d) := by
  rcases okOrClient_cases h with ⟨v, rfl⟩ | ⟨m, rfl⟩
  · exact ⟨v, rfl⟩
  · exact ⟨d, rfl⟩

theorem pyOk_recent_logs {B : Backend} {now lb : Int} {g s : Str}
    (h : OkOrClient (B.logs_get_log_events g s (now - lb * 60000) 50 false)) :
    pyOk (get_recent_logs B now g s lb) :=
  pyOk_catchClient _ (okOrClient_pyStep h (fun _ => okOrClient_ok _))

theorem pyOk_ec2_status {B : Backend} {iid : Str}
    (h : OkOrClient (B.ec2_describe_instance_status iid)) :
    pyOk (get_ec2_instance_status B iid) := by
  refine pyOk_catchClient _ (okOrClient_pyStep h (fun resp => ?_))
  cases resp.instanceStatuses <;> exact okOrClient_ok _

theorem probeClusters_okOrClient {d : Str → Py TasksResp} {tid : Str}
    (hd : ∀ c, OkOrClient (d c)) : ∀ cs, OkOrClient (probeClusters d tid cs).1 := by
  intro cs
  induction cs with
  | nil => exact okOrClient_ok _
  | cons c rest ih =>
    intro msg hcontra
    rw [probeClusters] at hcontra
    rcases okOrClient_cases (hd c) with ⟨v, hv⟩ | ⟨m, hm⟩
    · rw [hv] at hcontra
      cases ht : v.tasks with
      | nil =>
        simp only [ht] at hcontra
        exact ih msg hcontra
      | cons task ts2 =>
        simp only [ht] at hcontra
        exact absurd hcontra (by simp)
    · rw [hm] at hcontra
      exact ih msg hcontra

theorem pyOk_ecs_health {B : Backend} {tid : Str}
    (hcl : OkOrClient B.ecs_list_clusters)
    (hd : ∀ c t, OkOrClient (B.ecs_describe_tasks c t)) :
    pyOk (get_ecs_task_health B tid none) := by
  refine pyOk_catchClient _ (okOrClient_pyStep
    (okOrClient_pyStep hcl (fun _ => okOrClient_ok _)) (fun clusters => ?_))
  exact probeClusters_okOrClient (fun c => hd c tid) clusters

theorem albTargetGroups_okOrClient {B : Backend}
    (h : ∀ a, OkOrClient (B.elbv2_describe_target_health a)) :
    ∀ tgs, OkOrClient (albTargetGroups B tgs) := by
  intro tgs
  induction tgs with
  | nil => exact okOrClient_ok _
  | cons tg rest ih =>
    exact okOrClient_pyStep (h tg.targetGroupArn)
      (fun _ => okOrClient_pyStep ih (fun _ => okOrClient_ok _))

theorem pyOk_alb {B : Backend} {lbn : Str}
    (hsplit : 2 ≤ (splitOn '/' lbn).length)
    (h1 : ∀ n, OkOrClient (B.elbv2_describe_load_balancers n))
    (h2 : ∀ a, OkOrClient (B.elbv2_describe_target_groups a))
    (h3 : ∀ a, OkOrClient (B.elbv2_describe_target_health a)) :
    pyOk (get_alb_target_health B lbn) := by
  refine pyOk_catchClient _ (okOrClient_pyStep ?_ (fun lookupName => ?_))
  · intro msg
    simp [pyIndexNeg2, hsplit]
  · refine okOrClient_pyStep (h1 lookupName) (fun lbResp => ?_)
    cases lbResp.loadBalancers with
    | nil => exact okOrClient_ok _
    | cons lb rest =>
      exact okOrClient_pyStep (h2 lb.loadBalancerArn) (fun tgResp =>
        okOrClient_pyStep (albTargetGroups_okOrClient h3 tgResp.targetGroups)
          (fun _ => okOrClient_ok _))

theorem cfnStacksLoop_okOrClient {B : Backend} {cutoff : Int}
    (h : ∀ n, OkOrClient (B.cfn_describe_stack_events n)) :
    ∀ l, OkOrClient (cfnStacksLoop B cutoff l) := by
  intro l
  induction l with
  | nil => exact okOrClient_ok _
  | cons ss rest ih =>
    rw [cfnStacksLoop]
    split
    · refine okOrClient_pyStep (h ss.stackName) (fun evResp =>
        okOrClient_pyStep ih (fun tailChanges => ?_))
      split <;> exact okOrClient_ok _
    · exact ih

theorem pyOk_cfn {B : Backend} {now lh : Int}
    (hs : OkOrClient B.cfn_list_stacks)
    (he : ∀ n, OkOrClient (B.cfn_describe_stack_events n)) :
    pyOk (get_recent_cloudformation_changes B now lh) :=
  pyOk_catchClient _ (okOrClient_pyStep hs
    (fun resp => cfnStacksLoop_okOrClient he resp.stackSummaries))

theorem metricsLoop_okOrClient {B : Backend} {nsp : Option Str} {dims : List (Str × Str)}
    {t1 t2 : Int} (h : ∀ n d mn st a b, OkOrClient (B.cw_get_metric_statistics n d mn st a b)) :
    ∀ qs md, OkOrClient (metricsLoop B nsp dims t1 t2 qs md) := by
  intro qs
  induction qs with
  | nil => intro md; exact okOrClient_ok _
  | cons q rest ih =>
    intro md msg hcontra
    obtain ⟨mn, key, st⟩ := q
    rw [metricsLoop] at hcontra
    rcases okOrClient_cases (h nsp dims mn st t1 t2) with ⟨v, hv⟩ | ⟨m, hm⟩
    · rw [hv] at hcontra
      cases ht : sortByTs v.datapoints with
      | nil =>
        simp only [ht] at hcontra
        exact ih md msg hcontra
      | cons d2 ds =>
        simp only [ht] at hcontra
        exact ih _ msg hcontra
    · rw [hm] at hcontra
      exact ih md msg hcontra

theorem pyOk_metrics {B : Backend} {now : Int} {g : Str} {lm : Nat}
    (h : ∀ n d mn st a b, OkOrClient (B.cw_get_metric_statistics n d mn st a b)) :
    pyOk (get_cloudwatch_metrics B now g lm) := by
  refine pyOk_catchClient _ ?_
  cases hb1 : containsStr g (str "/lambda/") <;> cases hb2 : containsStr g (str "/ecs/") <;>
    simp [hb1, hb2] <;>
    first
      | exact okOrClient_pyStep (metricsLoop_okOrClient h _ _) (fun _ => okOrClient_ok _)
      | exact okOrClient_ok _

theorem pyOk_tags {B : Backend} {rid : Str} {rtype : Option Str}
    (h : ∀ i, OkOrClient (B.ec2_describe_tags i)) :
    pyOk (get_resource_tags B rid rtype) := by
  refine pyOk_catchClient _ ?_
  cases heq : rtype == some (str "ec2") <;> simp [heq] <;>
    first
      | exact okOrClient_pyStep (h rid) (fun _ => okOrClient_ok _)
      | exact okOrClient_ok _

theorem splitOn_cons (sep c : Char) (rest : Str) :
    splitOn sep (c :: rest)
      = if c == sep then [] :: splitOn sep rest
        else
          match splitOn sep rest with
          | [] => [[c]]
          | h :: t2 => (c :: h) :: t2 := rfl

theorem splitOn_ne_nil (sep : Char) (s : Str) : ¬ splitOn sep s = [] := by
  induction s with
  | nil => simp [splitOn]
  | cons c rest ih =>
    rw [splitOn_cons]
    cases hc : c == sep
    · rw [if_neg (by simp)]
      cases hsp : splitOn sep rest <;> simp
    · rw [if_pos rfl]
      simp

theorem splitOn_length_ge (sep : Char) :
    ∀ a b : Str, 2 ≤ (splitOn sep (a ++ sep :: b)).length := by
  intro a
  induction a with
  | nil =>
    intro b
    rw [List.nil_append, splitOn_cons, if_pos (by simp)]
    have hpos := List.length_pos.mpr (splitOn_ne_nil sep b)
    simp only [List.length_cons]
    omega
  | cons c a2 ih =>
    intro b
    rw [List.cons_append, splitOn_cons]
    cases hc : c == sep
    · rw [if_neg (by simp)]
      have h2 := ih b
      cases hsp : splitOn sep (a2 ++ sep :: b) with
      | nil => exact absurd hsp (splitOn_ne_nil sep _)
      | cons hh tt =>
        rw [hsp] at h2
        simpa using h2
    · rw [if_pos rfl]
      have hpos := List.length_pos.mpr (splitOn_ne_nil sep (a2 ++ sep :: b))
      simp only [List.length_cons]
      omega

theorem tryAlb_sound {s t : Str} (h : tryAlb s = some t) :
    ∃ nm h16, t = str "app/" ++ nm ++ [ '/' ] ++ h16 := by
  rw [tryAlb] at h
  cases hm : matchEx (str "app/") s with
  | none => rw [hm] at h; exact absurd h (by simp)
  | some r1 =>
    simp only [hm] at h
    cases hn : r1.takeWhile isAlbNameChar with
    | nil => simp only [hn] at h; exact absurd h (by simp)
    | cons n nm =>
      simp only [hn] at h
      split at h
      · split at h
        · exact ⟨n :: nm, _, by simpa using h.symm⟩
        · exact absurd h (by simp)
      · exact absurd h (by simp)

theorem albOf_segments {m t : Str} (h : albOf m = some t) :
    2 ≤ (splitOn '/' t).length := by
  obtain ⟨s', _, hf⟩ := firstSome_eq_some h
  obtain ⟨nm, h16, rfl⟩ := tryAlb_sound hf
  have heq : str "app/" ++ nm ++ [ '/' ] ++ h16
      = str "app" ++ '/' :: (nm ++ '/' :: h16) := by
    simp [str, List.append_assoc]
  rw [heq]
  exact splitOn_length_ge '/' (str "app") (nm ++ '/' :: h16)

/-- The classifier's load-balancer field is exactly the independent ALB
scan of the message (the final update of the context dict). -/
theorem extract_lb_field (g s m : Str) :
    (extract_log_context g s m).load_balancer_name = albOf m := rfl

/-- Counterexample for C1 as stated: with no reachable backend (connection
errors, which are not `ClientError`s), `gather_all_context` raises — the
connection error propagates out of the always-invoked CloudFormation
fetch — instead of returning a degraded context. -/
theorem gather_raises_cex :
    gather_all_context unreachableBackend 0
        { log_group := none, log_stream := none, message := none }
      = .error (.otherError (str "EndpointConnectionError")) := by decide

/-- C1 (amended): `gather_all_context` returns an `EnrichedContext` for
every alert provided every backend failure is a `ClientError` (each
client then absorbs it into an empty/None field); an exception that is
not a `ClientError` propagates out of the gather uncaught, and nothing is
ever recorded as an aggregation-error marker. -/
theorem gather_never_raises (B : Backend) (now : Int) (alert : Alert)
    (h : ClientFailOnly B) :
    ∃ res, gather_all_context B now alert = .ok res := by
  show pyOk (gather_all_context B now alert)
  rw [gather_all_context]
  cases hg : alert.log_group with
  | none =>
    apply pyOk_pyStep ⟨_, rfl⟩
    intro sl
    apply pyOk_pyStep ⟨_, rfl⟩
    intro sc
    apply pyOk_pyStep ⟨_, rfl⟩
    intro slb
    apply pyOk_pyStep (pyOk_cfn h.stacksOk h.eventsOk)
    intro rc
    apply pyOk_pyStep ⟨_, rfl⟩
    intro sm
    apply pyOk_pyStep ⟨_, rfl⟩
    intro st
    exact ⟨_, rfl⟩
  | some g =>
    cases hs : alert.log_stream with
    | none =>
      apply pyOk_pyStep ⟨_, rfl⟩
      intro sl
      apply pyOk_pyStep ⟨_, rfl⟩
      intro sc
      apply pyOk_pyStep ⟨_, rfl⟩
      intro slb
      apply pyOk_pyStep (pyOk_cfn h.stacksOk h.eventsOk)
      intro rc
      apply pyOk_pyStep
        (pyOk_pyStep (pyOk_metrics h.cwOk) (fun m => ⟨_, rfl⟩))
      intro sm
      apply pyOk_pyStep ⟨_, rfl⟩
      intro st
      exact ⟨_, rfl⟩
    | some s =>
      apply pyOk_pyStep
        (pyOk_pyStep (pyOk_recent_logs (h.logsOk g s _ 50 false)) (fun r => ⟨_, rfl⟩))
      intro sl
      refine pyOk_pyStep ?_ (fun sc => ?_)
      · split
        · exact pyOk_pyStep (pyOk_ecs_health h.clustersOk h.tasksOk) (fun r => ⟨_, rfl⟩)
        · split
          · exact pyOk_pyStep (pyOk_ec2_status (h.ec2Ok _)) (fun r => ⟨_, rfl⟩)
          · exact ⟨_, rfl⟩
      · refine pyOk_pyStep ?_ (fun slb => ?_)
        · split
          · next hcond =>
            have halb0 : (Option.bind (some (extract_log_context g s (alert.message.getD [])))
                fun lc => lc.load_balancer_name) = albOf (alert.message.getD []) := rfl
            rw [halb0] at hcond
            cases halb : albOf (alert.message.getD []) with
            | none => rw [halb] at hcond; simp [truthyOptStr] at hcond
            | some t =>
              have harg : ((Option.bind (some (extract_log_context g s (alert.message.getD [])))
                  fun lc => lc.load_balancer_name)).getD [] = t := by
                rw [halb0, halb]
                rfl
              rw [harg]
              exact pyOk_pyStep (pyOk_alb (albOf_segments halb) h.lbOk h.tgOk h.thOk)
                (fun r => ⟨_, rfl⟩)
          · exact ⟨_, rfl⟩
        · refine pyOk_pyStep (pyOk_cfn h.stacksOk h.eventsOk) (fun rc => ?_)
          refine pyOk_pyStep
            (pyOk_pyStep (pyOk_metrics h.cwOk) (fun m => ⟨_, rfl⟩)) (fun sm => ?_)
          refine pyOk_pyStep ?_ (fun st => ⟨_, rfl⟩)
          split
          · exact pyOk_pyStep (pyOk_tags h.tagsOk) (fun t => ⟨_, rfl⟩)
          · exact ⟨_, rfl⟩

/-- Witness for C1: all backends answer with `ClientError`s and the alert
carries a garbage group; the gather succeeds and the resulting context
has every client-derived field empty (the metrics dict keeps only its
period shell). -/
theorem gather_never_raises_witness :
    (∃ res, gather_all_context failingBackend 0
        { log_group := some (str "garbage"), log_stream := some (str "stream"),
          message := some (str "hello") } = .ok res) ∧
    gather_all_context failingBackend 0
        { log_group := some (str "garbage"), log_stream := some (str "stream"),
          message := some (str "hello") }
      = .ok ({ log_context := some (extract_log_context (str "garbage") (str "stream")
                 (str "hello")),
               compute := none, load_balancers := none, recent_changes := [],
               metrics := some { period := str "30 minutes" }, resource_tags := [],
               recent_logs := some [] },
             [Call.recentLogs, Call.cfnChanges, Call.cwMetrics]) := by
  have hfail : ClientFailOnly failingBackend := by
    constructor <;> (intros; simp [OkOrClient, failingBackend])
  refine ⟨gather_never_raises failingBackend 0 _ hfail, by decide⟩

/-! ## Call-selection claims -/

theorem pyStep_eq_ok {x : Py α} {f : α → Py β} {r : β} :
    pyStep x f = .ok r ↔ ∃ v, x = .ok v ∧ f v = .ok r := by
  cases x <;> simp [pyStep]

/-- Whenever `gather_all_context` returns, its invocation trace is exactly
the one dictated by the selection conditions. -/
theorem gather_trace {B : Backend} {now : Int} {alert : Alert}
    {ctx : EnrichedContext} {tr : List Call}
    (h : gather_all_context B now alert = .ok (ctx, tr)) :
    tr = expectedCalls alert := by
  obtain ⟨og, os, om⟩ := alert
  rw [gather_all_context] at h
  cases og with
  | none =>
    rw [pyStep_eq_ok] at h; obtain ⟨sl, hsl, h⟩ := h
    dsimp only at hsl
    simp only [Except.ok.injEq] at hsl; subst hsl
    rw [pyStep_eq_ok] at h; obtain ⟨sc, hsc, h⟩ := h
    dsimp only at hsc
    rw [if_neg (by decide), if_neg (by decide)] at hsc
    simp only [Except.ok.injEq] at hsc; subst hsc
    rw [pyStep_eq_ok] at h; obtain ⟨slb, hslb, h⟩ := h
    dsimp only at hslb
    rw [if_neg (by decide)] at hslb
    simp only [Except.ok.injEq] at hslb; subst hslb
    rw [pyStep_eq_ok] at h; obtain ⟨rc, hrc, h⟩ := h
    rw [pyStep_eq_ok] at h; obtain ⟨sm, hsm, h⟩ := h
    dsimp only at hsm
    simp only [Except.ok.injEq] at hsm; subst hsm
    rw [pyStep_eq_ok] at h; obtain ⟨st, hst, h⟩ := h
    dsimp only at hst
    rw [if_neg (by decide)] at hst
    simp only [Except.ok.injEq] at hst; subst hst
    simp only [Except.ok.injEq, Prod.mk.injEq] at h
    obtain ⟨-, htr⟩ := h
    rw [← htr]
    rfl
  | some g =>
    cases os with
    | none =>
      rw [pyStep_eq_ok] at h; obtain ⟨sl, hsl, h⟩ := h
      dsimp only at hsl
      simp only [Except.ok.injEq] at hsl; subst hsl
      rw [pyStep_eq_ok] at h; obtain ⟨sc, hsc, h⟩ := h
      dsimp only at hsc
      rw [if_neg (by decide), if_neg (by decide)] at hsc
      simp only [Except.ok.injEq] at hsc; subst hsc
      rw [pyStep_eq_ok] at h; obtain ⟨slb, hslb, h⟩ := h
      dsimp only at hslb
      rw [if_neg (by decide)] at hslb
      simp only [Except.ok.injEq] at hslb; subst hslb
      rw [pyStep_eq_ok] at h; obtain ⟨rc, hrc, h⟩ := h
      rw [pyStep_eq_ok] at h; obtain ⟨sm, hsm, h⟩ := h
      dsimp only at hsm
      rw [pyStep_eq_ok] at hsm; obtain ⟨m0, -, hsm⟩ := hsm
      simp only [Except.ok.injEq] at hsm; subst hsm
      rw [pyStep_eq_ok] at h; obtain ⟨st, hst, h⟩ := h
      dsimp only at hst
      rw [if_neg (by decide)] at hst
      simp only [Except.ok.injEq] at hst; subst hst
      simp only [Except.ok.injEq, Prod.mk.injEq] at h
      obtain ⟨-, htr⟩ := h
      rw [← htr]
      rfl
    | some s =>
      rw [pyStep_eq_ok] at h; obtain ⟨sl, hsl, h⟩ := h
      dsimp only at hsl
      rw [pyStep_eq_ok] at hsl; obtain ⟨r0, -, hsl⟩ := hsl
      simp only [Except.ok.injEq] at hsl; subst hsl
      rw [pyStep_eq_ok] at h; obtain ⟨sc, hsc, h⟩ := h
      rw [pyStep_eq_ok] at h; obtain ⟨slb, hslb, h⟩ := h
      rw [pyStep_eq_ok] at h; obtain ⟨rc, hrc, h⟩ := h
      rw [pyStep_eq_ok] at h; obtain ⟨sm, hsm, h⟩ := h
      dsimp only at hsm
      rw [pyStep_eq_ok] at hsm; obtain ⟨m0, -, hsm⟩ := hsm
      simp only [Except.ok.injEq] at hsm; subst hsm
      rw [pyStep_eq_ok] at h; obtain ⟨st, hst, h⟩ := h
      simp only [Except.ok.injEq, Prod.mk.injEq] at h
      obtain ⟨-, htr⟩ := h
      rw [← htr]
      dsimp only at hsc hslb hst ⊢
      split at hsc <;> try split at hsc
      all_goals split at hslb
      all_goals split at hst
      all_goals
        first
          | (rw [pyStep_eq_ok] at hsc; obtain ⟨rA, -, hsc⟩ := hsc)
          | skip
      all_goals
        first
          | (rw [pyStep_eq_ok] at hslb; obtain ⟨rB, -, hslb⟩ := hslb)
          | skip
      all_goals
        first
          | (rw [pyStep_eq_ok] at hst; obtain ⟨rC, -, hst⟩ := hst)
          | skip
      all_goals (simp only [Except.ok.injEq] at hsc hslb hst)
      all_goals (subst hsc; subst hslb; subst hst)
      all_goals simp_all [expectedCalls]

theorem hex32_ne_empty {s t : Str} (h : hex32 s = some t) : ¬ t = [] := by
  intro hc
  have := (hex32_sound h).1
  rw [hc] at this
  simp at this

theorem lambdaFunc_ne_empty {g t : Str} (h : lambdaFunc g = some t) : ¬ t = [] := by
  obtain ⟨s', -, hf⟩ := firstSome_eq_some h
  rw [tryLambdaFunc] at hf
  cases hm : matchEx (str "/aws/lambda/") s' with
  | none => rw [hm] at hf; exact absurd hf (by simp)
  | some rest =>
    simp only [hm] at hf
    cases hseg : rest.takeWhile (fun c => c != '/') with
    | nil => simp only [hseg] at hf; exact absurd hf (by simp)
    | cons x xs =>
      simp only [hseg] at hf
      obtain rfl : x :: xs = t := by simpa using hf
      simp

theorem ec2Instance_ne_empty {s t : Str} (h : ec2Instance s = some t) : ¬ t = [] := by
  obtain ⟨s', -, hf⟩ := firstSome_eq_some h
  cases s' with
  | nil => simp [tryEc2Id] at hf
  | cons c1 r1 =>
    cases r1 with
    | nil => simp [tryEc2Id] at hf
    | cons c2 rest =>
      rw [tryEc2Id] at hf
      split at hf
      · dsimp only at hf
        split at hf
        · exact absurd hf (by simp)
        · obtain rfl : _ = t := by simpa using hf
          simp
      · exact absurd hf (by simp)

theorem albOf_ne_empty {m t : Str} (h : albOf m = some t) : ¬ t = [] := by
  obtain ⟨s', -, hf⟩ := firstSome_eq_some h
  obtain ⟨nm, h16, rfl⟩ := tryAlb_sound hf
  simp [str]

theorem extract_rid_ne_empty {g s m t : Str}
    (h : (extract_log_context g s m).resource_id = some t) : ¬ t = [] := by
  rw [extract_log_context] at h
  cases hk : k8sCond s m <;> cases he : ecsCond g s <;>
    cases hl : lambdaCond g <;> cases h2 : ec2Cond g <;>
    simp only [hk, he, hl, h2, if_true, if_false, Bool.false_eq_true, ite_false,
      ite_true] at h <;>
    first
      | exact hex32_ne_empty h
      | exact lambdaFunc_ne_empty h
      | exact ec2Instance_ne_empty h
      | exact absurd h (by simp)

theorem extract_rid_truthy (g s m : Str) :
    truthyOptStr ((extract_log_context g s m).resource_id)
      = ((extract_log_context g s m).resource_id).isSome := by
  cases hr : (extract_log_context g s m).resource_id with
  | none => simp [truthyOptStr]
  | some t =>
    have hne := extract_rid_ne_empty hr
    simp [truthyOptStr, List.isEmpty_iff, hne]

theorem extract_lb_truthy (g s m : Str) :
    truthyOptStr ((extract_log_context g s m).load_balancer_name)
      = ((extract_log_context g s m).load_balancer_name).isSome := by
  rw [extract_lb_field]
  cases hr : albOf m with
  | none => simp [truthyOptStr]
  | some t =>
    have hne := albOf_ne_empty hr
    simp [truthyOptStr, List.isEmpty_iff, hne]

theorem extract_rid_kind {g s m t : Str}
    (h : (extract_log_context g s m).resource_id = some t) :
    ¬ (extract_log_context g s m).infrastructure_type = str "unknown" := by
  rw [extract_log_context] at h ⊢
  cases hk : k8sCond s m <;> cases he : ecsCond g s <;>
    cases hl : lambdaCond g <;> cases h2 : ec2Cond g <;>
    simp only [hk, he, hl, h2, if_true, if_false, Bool.false_eq_true, ite_false,
      ite_true] at h ⊢ <;>
    first
      | simp at h
      | decide

/-- C6: `gather_all_context` always invokes the CloudFormation changes
fetch; it invokes the ECS (resp. EC2) compute fetch iff classification
produced kind `ecs` (resp. `ec2`) together with a present resource id;
the load-balancer fetch iff a load-balancer name was detected; the tag
fetch iff a resource id is present — and a present resource id implies
the kind is known (never `unknown`); the recent-log and metrics fetches
happen whenever the alert carries both log fields. -/
theorem gather_call_selection (B : Backend) (now : Int) (alert : Alert)
    (ctx : EnrichedContext) (tr : List Call)
    (h : gather_all_context B now alert = .ok (ctx, tr)) :
    (Call.cfnChanges ∈ tr) ∧
    ((Call.ecsHealth ∈ tr) ↔
      (logCtxOf alert).map (fun lc => lc.infrastructure_type) = some (str "ecs") ∧
      ((logCtxOf alert).bind (fun lc => lc.resource_id)).isSome = true) ∧
    ((Call.ec2Status ∈ tr) ↔
      (logCtxOf alert).map (fun lc => lc.infrastructure_type) = some (str "ec2") ∧
      ((logCtxOf alert).bind (fun lc => lc.resource_id)).isSome = true) ∧
    ((Call.albHealth ∈ tr) ↔
      ((logCtxOf alert).bind (fun lc => lc.load_balancer_name)).isSome = true) ∧
    ((Call.resourceTags ∈ tr) ↔
      ((logCtxOf alert).bind (fun lc => lc.resource_id)).isSome = true) ∧
    (∀ t, (logCtxOf alert).bind (fun lc => lc.resource_id) = some t →
      ¬ (logCtxOf alert).map (fun lc => lc.infrastructure_type) = some (str "unknown")) ∧
    (alert.log_group.isSome = true → alert.log_stream.isSome = true →
      Call.recentLogs ∈ tr ∧ Call.cwMetrics ∈ tr) := by
  have htr := gather_trace h
  subst htr
  obtain ⟨og, os, om⟩ := alert
  cases og with
  | none => simp [expectedCalls, logCtxOf, truthyOptStr]
  | some g =>
    cases os with
    | none => simp [expectedCalls, logCtxOf, truthyOptStr]
    | some s =>
      have hT := extract_rid_truthy g s (om.getD [])
      have hL := extract_lb_truthy g s (om.getD [])
      have hNe : ¬ str "ecs" = str "ec2" := by decide
      have hkind : ∀ t, ((logCtxOf ⟨some g, some s, om⟩).bind (fun lc => lc.resource_id))
          = some t →
          ¬ (logCtxOf ⟨some g, some s, om⟩).map (fun lc => lc.infrastructure_type)
            = some (str "unknown") := by
        intro t ht hcontra
        simp only [logCtxOf, Option.map, Option.bind, Option.some.injEq] at ht hcontra
        exact extract_rid_kind ht hcontra
      refine ⟨?_, ?_, ?_, ?_, ?_, hkind, ?_⟩ <;>
        (by_cases hk : (extract_log_context g s (om.getD [])).infrastructure_type
            = str "ecs" <;>
         by_cases hk2 : (extract_log_context g s (om.getD [])).infrastructure_type
            = str "ec2" <;>
         by_cases hr : ((extract_log_context g s (om.getD [])).resource_id).isSome
            = true <;>
         by_cases hlb : ((extract_log_context g s
            (om.getD [])).load_balancer_name).isSome = true <;>
         simp_all [expectedCalls, logCtxOf])

/-- Witness for C6: on an ECS-classified alert the trace contains the
recent-log, ECS-health, changes, metrics and tag calls and no ALB call. -/
theorem gather_call_selection_witness :
    gather_all_context failingBackend 0 wEcsAlert
      = .ok (wEcsCtx, [Call.recentLogs, Call.ecsHealth, Call.cfnChanges,
                       Call.cwMetrics, Call.resourceTags]) ∧
    Call.ecsHealth ∈ [Call.recentLogs, Call.ecsHealth, Call.cfnChanges,
                      Call.cwMetrics, Call.resourceTags] ∧
    Call.cfnChanges ∈ [Call.recentLogs, Call.ecsHealth, Call.cfnChanges,
                       Call.cwMetrics, Call.resourceTags] ∧
    ¬ Call.albHealth ∈ [Call.recentLogs, Call.ecsHealth, Call.cfnChanges,
                        Call.cwMetrics, Call.resourceTags] := by
  have hgather : gather_all_context failingBackend 0 wEcsAlert
      = .ok (wEcsCtx, [Call.recentLogs, Call.ecsHealth, Call.cfnChanges,
                       Call.cwMetrics, Call.resourceTags]) := by decide
  have h := gather_call_selection failingBackend 0 wEcsAlert wEcsCtx _ hgather
  refine ⟨hgather, h.2.1.mpr ⟨by decide, by decide⟩, h.1, fun hc => ?_⟩
  exact absurd (h.2.2.2.1.mp hc) (by decide)

/-- C10: an alert lacking its log stream (or its log group) produces no
classification and no recent-log fetch — the context's `log_context` is
the empty dict, the `recent_logs` key is absent altogether, no compute,
load-balancer or tag call happens — and only the CloudFormation changes
fetch (plus, when the log group is present, the metrics fetch) runs. -/
theorem gather_missing_stream (B : Backend) (now : Int) (alert : Alert)
    (ctx : EnrichedContext) (tr : List Call)
    (halert : alert.log_stream = none ∨ alert.log_group = none)
    (h : gather_all_context B now alert = .ok (ctx, tr)) :
    ctx.log_context = none ∧ ctx.recent_logs = none ∧ ctx.compute = none ∧
    ctx.load_balancers = none ∧ ctx.resource_tags = [] ∧
    ¬ Call.recentLogs ∈ tr ∧ ¬ Call.ecsHealth ∈ tr ∧ ¬ Call.ec2Status ∈ tr ∧
    ¬ Call.albHealth ∈ tr ∧ ¬ Call.resourceTags ∈ tr ∧
    Call.cfnChanges ∈ tr ∧
    (alert.log_group.isSome = true → Call.cwMetrics ∈ tr) ∧
    (alert.log_group = none → ¬ Call.cwMetrics ∈ tr) := by
  obtain ⟨og, os, om⟩ := alert
  rw [gather_all_context] at h
  have hcase : og = none ∨ (os = none ∧ ∃ g, og = some g) := by
    rcases halert with hos | hog
    · dsimp only at hos
      cases og with
      | none => exact Or.inl rfl
      | some g => exact Or.inr ⟨hos, g, rfl⟩
    · dsimp only at hog
      exact Or.inl hog
  rcases hcase with rfl | ⟨rfl, g, rfl⟩
  · rw [pyStep_eq_ok] at h; obtain ⟨sl, hsl, h⟩ := h
    dsimp only at hsl
    simp only [Except.ok.injEq] at hsl; subst hsl
    rw [pyStep_eq_ok] at h; obtain ⟨sc, hsc, h⟩ := h
    dsimp only at hsc
    rw [if_neg (by decide), if_neg (by decide)] at hsc
    simp only [Except.ok.injEq] at hsc; subst hsc
    rw [pyStep_eq_ok] at h; obtain ⟨slb, hslb, h⟩ := h
    dsimp only at hslb
    rw [if_neg (by decide)] at hslb
    simp only [Except.ok.injEq] at hslb; subst hslb
    rw [pyStep_eq_ok] at h; obtain ⟨rc, hrc, h⟩ := h
    rw [pyStep_eq_ok] at h; obtain ⟨sm, hsm, h⟩ := h
    dsimp only at hsm
    simp only [Except.ok.injEq] at hsm; subst hsm
    rw [pyStep_eq_ok] at h; obtain ⟨st, hst, h⟩ := h
    dsimp only at hst
    rw [if_neg (by decide)] at hst
    simp only [Except.ok.injEq] at hst; subst hst
    simp only [Except.ok.injEq, Prod.mk.injEq] at h
    obtain ⟨hctx, htr⟩ := h
    subst hctx; subst htr
    refine ⟨rfl, rfl, rfl, rfl, rfl, by decide, by decide, by decide, by decide,
      by decide, by decide, ?_, ?_⟩
    · intro hcontra; simp at hcontra
    · intro _; decide
  · rw [pyStep_eq_ok] at h; obtain ⟨sl, hsl, h⟩ := h
    dsimp only at hsl
    simp only [Except.ok.injEq] at hsl; subst hsl
    rw [pyStep_eq_ok] at h; obtain ⟨sc, hsc, h⟩ := h
    dsimp only at hsc
    rw [if_neg (by decide), if_neg (by decide)] at hsc
    simp only [Except.ok.injEq] at hsc; subst hsc
    rw [pyStep_eq_ok] at h; obtain ⟨slb, hslb, h⟩ := h
    dsimp only at hslb
    rw [if_neg (by decide)] at hslb
    simp only [Except.ok.injEq] at hslb; subst hslb
    rw [pyStep_eq_ok] at h; obtain ⟨rc, hrc, h⟩ := h
    rw [pyStep_eq_ok] at h; obtain ⟨sm, hsm, h⟩ := h
    dsimp only at hsm
    rw [pyStep_eq_ok] at hsm; obtain ⟨m0, -, hsm⟩ := hsm
    simp only [Except.ok.injEq] at hsm; subst hsm
    rw [pyStep_eq_ok] at h; obtain ⟨st, hst, h⟩ := h
    dsimp only at hst
    rw [if_neg (by decide)] at hst
    simp only [Except.ok.injEq] at hst; subst hst
    simp only [Except.ok.injEq, Prod.mk.injEq] at h
    obtain ⟨hctx, htr⟩ := h
    subst hctx; subst htr
    refine ⟨rfl, rfl, rfl, rfl, rfl, by decide, by decide, by decide, by decide,
      by decide, by decide, ?_, ?_⟩
    · intro _; decide
    · intro hcontra; simp at hcontra

/-- Witness for C10: an alert with a log group but no log stream. -/
theorem gather_missing_stream_witness :
    gather_all_context failingBackend 0
        { log_group := some (str "g"), log_stream := none, message := none }
      = .ok ({ log_context := none, compute := none, load_balancers := none,
               recent_changes := [], metrics := some { period := str "30 minutes" },
               resource_tags := [], recent_logs := none },
             [Call.cfnChanges, Call.cwMetrics]) ∧
    ({ log_group := some (str "g"), log_stream := none,
       message := none } : Alert).log_stream = none ∧
    ¬ Call.recentLogs ∈ [Call.cfnChanges, Call.cwMetrics] ∧
    Call.cfnChanges ∈ [Call.cfnChanges, Call.cwMetrics] ∧
    Call.cwMetrics ∈ [Call.cfnChanges, Call.cwMetrics] := by
  have hgather : gather_all_context failingBackend 0
      { log_group := some (str "g"), log_stream := none, message := none }
      = .ok ({ log_context := none, compute := none, load_balancers := none,
               recent_changes := [], metrics := some { period := str "30 minutes" },
               resource_tags := [], recent_logs := none },
             [Call.cfnChanges, Call.cwMetrics]) := by decide
  have h := gather_missing_stream failingBackend 0 _ _ _ (Or.inl rfl) hgather
  exact ⟨hgather, rfl, h.2.2.2.2.2.1, h.2.2.2.2.2.2.2.2.2.2.1,
    h.2.2.2.2.2.2.2.2.2.2.2.1 rfl⟩

/-! ## Formatter claims -/


theorem filter_eq_nil_of_all {l : List Str}
    (h : ∀ x ∈ l, isHeaderLike x = false) : l.filter isHeaderLike = [] := by
  induction l with
  | nil => rfl
  | cons a t ih =>
    rw [List.filter_cons, h a (List.mem_cons_self a t)]
    exact ih (fun x hx => h x (List.mem_cons_of_mem a hx))

theorem mem_optLine {pre : Str} {v : Option Str} {x : Str}
    (hx : x ∈ optLine pre v) : ∃ s, x = pre ++ s := by
  cases v with
  | none => simp [optLine] at hx
  | some s =>
    rw [optLine] at hx
    split at hx
    · simp at hx
    · rw [List.mem_singleton] at hx
      exact ⟨s, hx⟩

theorem filter_section_sub {hdr : Str} {rest : List Str}
    (hh : isHeaderLike hdr = true)
    (hr : ∀ x ∈ rest, isHeaderLike x = false) :
    List.Sublist ((hdr :: rest).filter isHeaderLike) [hdr] := by
  rw [List.filter_cons, if_pos hh, filter_eq_nil_of_all hr]

theorem infra_filter (ctx : EnrichedContext) :
    List.Sublist ((infraSection ctx).filter isHeaderLike)
      [str "## Infrastructure Context"] := by
  cases hlc : ctx.log_context with
  | none => simp [infraSection, hlc]
  | some lc =>
    simp only [infraSection, hlc, List.cons_append, List.nil_append,
      List.append_assoc]
    refine filter_section_sub rfl ?_
    intro x hx
    simp only [List.mem_cons, List.mem_append] at hx
    rcases hx with rfl | hx | hx | hx | hx | hx | hx
    · rfl
    · obtain ⟨s, rfl⟩ := mem_optLine hx; rfl
    · obtain ⟨s, rfl⟩ := mem_optLine hx; rfl
    · obtain ⟨s, rfl⟩ := mem_optLine hx; rfl
    · obtain ⟨s, rfl⟩ := mem_optLine hx; rfl
    · cases hc : lc.container_id with
      | none => rw [hc] at hx; simp at hx
      | some c =>
        rw [hc] at hx
        dsimp only at hx
        split at hx
        · simp at hx
        · rw [List.mem_singleton] at hx
          subst hx; rfl
    · obtain ⟨s, rfl⟩ := mem_optLine hx; rfl

theorem logs_filter (fmtT : Int → Str) (ctx : EnrichedContext) :
    List.Sublist ((recentLogsSection fmtT ctx).filter isHeaderLike)
      [str "\n## Recent Log Entries (last 10 minutes)"] := by
  cases hl : ctx.recent_logs with
  | none => simp [recentLogsSection, hl]
  | some logs =>
    simp only [recentLogsSection, hl]
    split
    · simp
    · refine filter_section_sub rfl ?_
      intro x hx
      obtain ⟨l, -, rfl⟩ := List.mem_map.mp hx
      rfl

theorem ec2Block_filter (e : Ec2Status) :
    List.Sublist ((ec2Block e).filter isHeaderLike)
      [str "\n## EC2 Instance Health"] := by
  simp only [ec2Block, List.cons_append, List.nil_append]
  refine filter_section_sub rfl ?_
  intro x hx
  simp only [List.mem_cons] at hx
  rcases hx with rfl | rfl | rfl | hx
  · rfl
  · rfl
  · rfl
  · split at hx
    · simp at hx
    · rw [List.mem_singleton] at hx
      subst hx; rfl

theorem ecsBlock_filter (t : EcsTaskHealth) :
    List.Sublist ((ecsBlock t).filter isHeaderLike)
      [str "\n## ECS Task Health"] := by
  simp only [ecsBlock, List.cons_append, List.nil_append]
  refine filter_section_sub rfl ?_
  intro x hx
  simp only [List.mem_cons] at hx
  rcases hx with rfl | rfl | rfl | rfl | hx
  · rfl
  · rfl
  · rfl
  · rfl
  · obtain ⟨c, -, hmem⟩ := List.mem_flatMap.mp hx
    rcases List.mem_cons.mp hmem with rfl | hmem2
    · rfl
    · cases hec : c.exit_code with
      | none => rw [hec] at hmem2; simp at hmem2
      | some ec =>
        rw [hec] at hmem2
        dsimp only at hmem2
        split at hmem2
        · simp at hmem2
        · rw [List.mem_singleton] at hmem2
          subst hmem2; rfl

theorem compute_filter (ctx : EnrichedContext) :
    List.Sublist ((computeSection ctx).filter isHeaderLike)
      [str "\n## EC2 Instance Health", str "\n## ECS Task Health"] := by
  cases hc : ctx.compute with
  | none => simp [computeSection, hc]
  | some comp =>
    simp only [computeSection, hc]
    rw [List.filter_append]
    show List.Sublist _
      ([str "\n## EC2 Instance Health"] ++ [str "\n## ECS Task Health"])
    refine List.Sublist.append ?_ ?_
    · cases comp.ec2 with
      | none => simp
      | some e => exact ec2Block_filter e
    · cases comp.ecs with
      | none => simp
      | some t2 => exact ecsBlock_filter t2

theorem lb_filter (ctx : EnrichedContext) :
    List.Sublist ((lbSection ctx).filter isHeaderLike)
      [str "\n## Load Balancer Health"] := by
  cases hl : ctx.load_balancers with
  | none => simp [lbSection, hl]
  | some lb =>
    simp only [lbSection, hl]
    refine filter_section_sub rfl ?_
    intro x hx
    rcases List.mem_cons.mp hx with rfl | hx2
    · rfl
    · obtain ⟨tg, -, rfl⟩ := List.mem_map.mp hx2
      rfl

theorem changes_filter (ctx : EnrichedContext) :
    List.Sublist ((changesSection ctx).filter isHeaderLike)
      [str "\n## Recent Infrastructure Changes (last 24h)"] := by
  rw [changesSection]
  split
  · simp
  · refine filter_section_sub rfl ?_
    intro x hx
    obtain ⟨ch, -, hmem⟩ := List.mem_flatMap.mp hx
    rcases List.mem_cons.mp hmem with rfl | hmem2
    · rfl
    · obtain ⟨f, -, rfl⟩ := List.mem_map.mp hmem2
      rfl

theorem metrics_filter (fmtF fmtG : Rat → Str) (ctx : EnrichedContext) :
    List.Sublist ((metricsSection fmtF fmtG ctx).filter isHeaderLike)
      [str "\n## CloudWatch Metrics ("
        ++ (match ctx.metrics with | some m => m.period | none => []) ++ str ")"] := by
  cases hm : ctx.metrics with
  | none => simp [metricsSection, hm]
  | some m =>
    simp only [metricsSection, hm]
    refine filter_section_sub rfl ?_
    intro x hx
    simp only [List.mem_append] at hx
    rcases hx with (hx | hx) | hx
    · cases hc : m.cpu with
      | none => rw [hc] at hx; simp at hx
      | some c =>
        rw [hc] at hx
        dsimp only at hx
        rw [List.mem_singleton] at hx
        subst hx; rfl
    · cases hc : m.memory with
      | none => rw [hc] at hx; simp at hx
      | some c =>
        rw [hc] at hx
        dsimp only at hx
        rw [List.mem_singleton] at hx
        subst hx; rfl
    · cases hc : m.errors with
      | none => rw [hc] at hx; simp at hx
      | some c =>
        rw [hc] at hx
        dsimp only at hx
        rw [List.mem_singleton] at hx
        subst hx; rfl

theorem tags_filter (ctx : EnrichedContext) :
    List.Sublist ((tagsSection ctx).filter isHeaderLike)
      [str "\n## Resource Tags"] := by
  rw [tagsSection]
  split
  · simp
  · refine filter_section_sub rfl ?_
    intro x hx
    obtain ⟨kv, -, rfl⟩ := List.mem_map.mp hx
    rfl

theorem isEmpty_take_map_trunc (logs : List LogEntry) :
    ((logs.take 10).map (fun l =>
      ({ l with message := l.message.take 200 } : LogEntry))).isEmpty
      = logs.isEmpty := by
  cases logs <;> rfl

/-- C9: the formatter renders the sections in the fixed source order —
infrastructure identity, recent logs, compute health (EC2 then ECS), load
balancers, recent changes, metrics, tags — witnessed by the section
headers of its line list forming a sublist of the canonical header list;
it omits every section whose backing field is absent; the recent-logs
section shows at most 10 entries (at most 11 lines with its header) and
reads only the first 200 characters of each shown message, and the
recent-changes section reads only the first 5 changes; and the output is
`"\n".join` of this deterministic line list. -/
theorem format_sections_policy (fmtF fmtG : Rat → Str) (fmtT : Int → Str)
    (ctx : EnrichedContext) :
    format_context_for_prompt fmtF fmtG fmtT ctx
      = joinSep (str "\n") (allSections fmtF fmtG fmtT ctx)
    ∧ List.Sublist ((allSections fmtF fmtG fmtT ctx).filter isHeaderLike)
        (canonHeaders ctx)
    ∧ (ctx.log_context = none → infraSection ctx = [])
    ∧ (ctx.recent_logs = none → recentLogsSection fmtT ctx = [])
    ∧ (ctx.compute = none → computeSection ctx = [])
    ∧ (ctx.load_balancers = none → lbSection ctx = [])
    ∧ (ctx.recent_changes = [] → changesSection ctx = [])
    ∧ (ctx.metrics = none → metricsSection fmtF fmtG ctx = [])
    ∧ (ctx.resource_tags = [] → tagsSection ctx = [])
    ∧ (∀ logs, ctx.recent_logs = some logs →
        recentLogsSection fmtT ctx
          = recentLogsSection fmtT
              { ctx with recent_logs := some ((logs.take 10).map (fun l =>
                  { l with message := l.message.take 200 })) }
        ∧ (recentLogsSection fmtT ctx).length ≤ 11)
    ∧ changesSection ctx
        = changesSection { ctx with recent_changes := ctx.recent_changes.take 5 } := by
  refine ⟨rfl, ?_, ?_, ?_, ?_, ?_, ?_, ?_, ?_, ?_, ?_⟩
  · show List.Sublist _
      ([str "## Infrastructure Context"]
        ++ ([str "\n## Recent Log Entries (last 10 minutes)"]
        ++ ([str "\n## EC2 Instance Health", str "\n## ECS Task Health"]
        ++ ([str "\n## Load Balancer Health"]
        ++ ([str "\n## Recent Infrastructure Changes (last 24h)"]
        ++ ([str "\n## CloudWatch Metrics ("
              ++ (match ctx.metrics with | some m => m.period | none => [])
              ++ str ")"]
        ++ [str "\n## Resource Tags"]))))))
    simp only [allSections, List.filter_append, List.append_assoc]
    refine List.Sublist.append (infra_filter ctx) ?_
    refine List.Sublist.append (logs_filter fmtT ctx) ?_
    refine List.Sublist.append (compute_filter ctx) ?_
    refine List.Sublist.append (lb_filter ctx) ?_
    refine List.Sublist.append (changes_filter ctx) ?_
    exact List.Sublist.append (metrics_filter fmtF fmtG ctx) (tags_filter ctx)
  · intro h; simp [infraSection, h]
  · intro h; simp [recentLogsSection, h]
  · intro h; simp [computeSection, h]
  · intro h; simp [lbSection, h]
  · intro h; simp [changesSection, h]
  · intro h; simp [metricsSection, h]
  · intro h; simp [tagsSection, h]
  · intro logs hl
    have hproj : ({ ctx with recent_logs := some ((logs.take 10).map (fun l =>
        { l with message := l.message.take 200 })) } : EnrichedContext).recent_logs
        = some ((logs.take 10).map (fun l =>
            { l with message := l.message.take 200 })) := rfl
    constructor
    · simp only [recentLogsSection, hl, hproj]
      rw [isEmpty_take_map_trunc]
      by_cases hemp : logs.isEmpty
      · rw [if_pos hemp, if_pos hemp]
      · rw [if_neg hemp, if_neg hemp]
        have hlen : ((logs.take 10).map (fun l =>
            ({ l with message := l.message.take 200 } : LogEntry))).length ≤ 10 := by
          rw [List.length_map, List.length_take]
          exact min_le_left _ _
        rw [List.take_of_length_le hlen, List.map_map]
        congr 1
        refine List.map_congr_left ?_
        intro l _
        show str "[" ++ fmtT l.timestamp ++ str "] " ++ l.message.take 200
          = str "[" ++ fmtT l.timestamp ++ str "] " ++ (l.message.take 200).take 200
        rw [List.take_take]
        norm_num
    · simp only [recentLogsSection, hl]
      split
      · simp
      · simp only [List.length_cons, List.length_map, List.length_take]
        have : min 10 logs.length ≤ 10 := min_le_left _ _
        omega
  · have hproj : ({ ctx with recent_changes := ctx.recent_changes.take 5 }
        : EnrichedContext).recent_changes = ctx.recent_changes.take 5 := rfl
    simp only [changesSection, hproj]
    have hemp : (ctx.recent_changes.take 5).isEmpty = ctx.recent_changes.isEmpty := by
      cases ctx.recent_changes <;> rfl
    rw [hemp]
    by_cases h : ctx.recent_changes.isEmpty
    · rw [if_pos h, if_pos h]
    · rw [if_neg h, if_neg h]
      congr 1
      rw [List.take_take]
      norm_num

/-- Witness for C9 at a concrete context: the header order, two omitted
sections and the logs truncation invariance, all evaluated. -/
theorem format_sections_policy_witness :
    List.Sublist ((allSections (fun _ => str "0") (fun _ => str "0")
        (fun _ => str "0") wFmtCtx).filter isHeaderLike) (canonHeaders wFmtCtx)
    ∧ infraSection wFmtCtx = []
    ∧ changesSection wFmtCtx = []
    ∧ recentLogsSection (fun _ => str "0") wFmtCtx
        = recentLogsSection (fun _ => str "0")
            { wFmtCtx with recent_logs := some (
                (([{ timestamp := 0, message := str "boom" }] : List LogEntry).take
                  10).map (fun l => { l with message := l.message.take 200 })) } := by
  have h := format_sections_policy (fun _ => str "0") (fun _ => str "0")
    (fun _ => str "0") wFmtCtx
  exact ⟨h.2.1, h.2.2.1 rfl, h.2.2.2.2.2.2.1 rfl,
    (h.2.2.2.2.2.2.2.2.2.1 [{ timestamp := 0, message := str "boom" }] rfl).1⟩

end Madabot
